import Mathlib

/-!
# Magnum: mesh layout builder, enum translation, complex numbers

A shallow embedding of the mesh layout builder declared in
`src/Magnum/Vk/MeshLayout.h`, of the enum translation functions of
`src/Magnum/Vk/Enums.cpp` and of the class template of `src/Math/Complex.h`.

The header declares the class, its three private members (`_vertexInfo`,
`_assemblyInfo`, `_state`), the inline accessors and the documented contract
of every member function. The bodies of the constructors and of
`addBinding` / `addInstancedBinding` / `addAttribute` live in
`MeshLayout.cpp`; they are modelled here from the specification
(sections 3, 4.1 and 9) and from the documentation blocks of the header.

Integers are natural numbers: the specification describes every index,
stride, offset and divisor as an "integer ≥ 0", and no operation of the
builder does arithmetic on them.

Pointer fields are symbolic: a pointer is null, an address in memory owned by
the caller, or the address of one of the four pieces of storage the builder
owns. That keeps "the pointer is kept verbatim" apart from "the pointed-to
data is equal". Where a builder is moved, it is laid out in memory
(namespace `Memory`): a pointer into builder-owned storage names the
allocation it leads into, and a read through it gives something only while the
reader owns that allocation.

In Enums.cpp a failed `CORRADE_ASSERT` is an error result; enum values are
handled through their 32-bit unsigned value, as the code does. The complex
numbers are taken over a generic scalar type; library functions they call
(`MathTypeTraits<T>::equals`, `std::acos`, `std::hypot`, the NaN value) are
parameters. The vectors of Math/Vector.h are known through their test
Math/Test/VectorTest.cpp only and are defined to give what the test expects.
A floating-point component is NaN or a number where values are compared; in
arithmetic and conversions it is a rational that is a finite value of a
binary format, every result being rounded to the format, and an integer
component is an integer within the bounds of its type.
-/

namespace Magnum
namespace Vk

/-! ## Data model -/

/-- Enum `MeshPrimitive` (MeshLayout.h:52-118), wrapping `VkPrimitiveTopology`. -/
inductive MeshPrimitive where
  | Points
  | Lines
  | LineStrip
  | Triangles
  | TriangleStrip
  | TriangleFan
  | LinesAdjacency
  | LineStripAdjacency
  | TrianglesAdjacency
  | TriangleStripAdjacency
  | Patches
deriving DecidableEq, Repr

/-- Numeric value of each `MeshPrimitive` enumerator, which is the value of the
`VK_PRIMITIVE_TOPOLOGY_*` constant it is initialised with (MeshLayout.h:58-117).
The conversion `VkPrimitiveTopology(primitive)` is this value. -/
def MeshPrimitive.toVkPrimitiveTopology : MeshPrimitive → Nat
  | .Points => 0
  | .Lines => 1
  | .LineStrip => 2
  | .Triangles => 3
  | .TriangleStrip => 4
  | .TriangleFan => 5
  | .LinesAdjacency => 6
  | .LineStripAdjacency => 7
  | .TrianglesAdjacency => 8
  | .TriangleStripAdjacency => 9
  | .Patches => 10

/-- Values of `VkVertexInputRate`: `VERTEX` is the spec's PerVertex, `INSTANCE`
its PerInstance. -/
inductive VkVertexInputRate where
  | VERTEX
  | INSTANCE
deriving DecidableEq, Repr

/-- Address stored in a pointer field of one of the Vulkan structures. -/
inductive Ptr where
  /-- The null pointer (the zero value of a pointer field). -/
  | null
  /-- An address in memory owned by the caller, never by the builder. -/
  | foreign (addr : Nat)
  /-- Start of the binding descriptor array owned by the builder. -/
  | bindings
  /-- Start of the attribute descriptor array owned by the builder. -/
  | attributes
  /-- Start of the divisor descriptor array owned by the builder. -/
  | bindingDivisors
  /-- Address of the divisor block owned by the builder. -/
  | divisorInfo
deriving DecidableEq, Repr

/-- The spec's BindingDescriptor, `VkVertexInputBindingDescription`
(fields listed at MeshLayout.h:236-238). -/
structure VkVertexInputBindingDescription where
  binding : Nat
  stride : Nat
  inputRate : VkVertexInputRate
deriving DecidableEq, Repr

/-- The spec's AttributeDescriptor, `VkVertexInputAttributeDescription`
(fields listed at MeshLayout.h:291-294). The format is the numeric value of
the `VertexFormat` enumerator. -/
structure VkVertexInputAttributeDescription where
  location : Nat
  binding : Nat
  format : Nat
  offset : Nat
deriving DecidableEq, Repr

/-- The spec's DivisorDescriptor, `VkVertexInputBindingDivisorDescriptionEXT`
(fields listed at MeshLayout.h:265-266). -/
structure VkVertexInputBindingDivisorDescriptionEXT where
  binding : Nat
  divisor : Nat
deriving DecidableEq, Repr

/-- The spec's DivisorAggregate, `VkPipelineVertexInputDivisorStateCreateInfoEXT`:
a tagged extension block that refers to the divisor descriptors. -/
structure VkPipelineVertexInputDivisorStateCreateInfoEXT where
  sType : Nat
  pNext : Ptr
  vertexBindingDivisorCount : Nat
  pVertexBindingDivisors : Ptr
deriving DecidableEq, Repr

/-- The spec's VertexInputAggregate, `VkPipelineVertexInputStateCreateInfo`. -/
structure VkPipelineVertexInputStateCreateInfo where
  sType : Nat
  pNext : Ptr
  flags : Nat
  vertexBindingDescriptionCount : Nat
  pVertexBindingDescriptions : Ptr
  vertexAttributeDescriptionCount : Nat
  pVertexAttributeDescriptions : Ptr
deriving DecidableEq, Repr

/-- The spec's InputAssemblyAggregate, `VkPipelineInputAssemblyStateCreateInfo`. -/
structure VkPipelineInputAssemblyStateCreateInfo where
  sType : Nat
  pNext : Ptr
  flags : Nat
  topology : Nat
  primitiveRestartEnable : Bool
deriving DecidableEq, Repr

/-- Structure-type tag `VK_STRUCTURE_TYPE_PIPELINE_VERTEX_INPUT_STATE_CREATE_INFO`. -/
def VK_STRUCTURE_TYPE_PIPELINE_VERTEX_INPUT_STATE_CREATE_INFO : Nat := 19

/-- Structure-type tag `VK_STRUCTURE_TYPE_PIPELINE_INPUT_ASSEMBLY_STATE_CREATE_INFO`. -/
def VK_STRUCTURE_TYPE_PIPELINE_INPUT_ASSEMBLY_STATE_CREATE_INFO : Nat := 20

/-- Structure-type tag
`VK_STRUCTURE_TYPE_PIPELINE_VERTEX_INPUT_DIVISOR_STATE_CREATE_INFO_EXT`. -/
def VK_STRUCTURE_TYPE_PIPELINE_VERTEX_INPUT_DIVISOR_STATE_CREATE_INFO_EXT : Nat := 1000190001

/-- Modelled from the spec: the contents of `struct MeshLayout::State`, which
the header only forward-declares (MeshLayout.h:334). Section 3 gives the
builder an ordered collection of binding descriptors, an ordered collection
of attribute descriptors and the divisor descriptors; section 9 describes the
divisor aggregate as "(optionally absent) extension storage" held by the
owner, attached once. -/
structure State where
  bindings : List VkVertexInputBindingDescription
  bindingDivisors : List VkVertexInputBindingDivisorDescriptionEXT
  attributes : List VkVertexInputAttributeDescription
  divisorInfo : Option VkPipelineVertexInputDivisorStateCreateInfoEXT
deriving DecidableEq, Repr

/-- A freshly allocated, empty `State`. -/
def State.empty : State :=
  { bindings := [], bindingDivisors := [], attributes := [], divisorInfo := none }

/-- Class `MeshLayout` (MeshLayout.h:169-336): the two aggregates and the
owning pointer to the private state (`none` is the null `Containers::Pointer`). -/
structure MeshLayout where
  _vertexInfo : VkPipelineVertexInputStateCreateInfo
  _assemblyInfo : VkPipelineInputAssemblyStateCreateInfo
  _state : Option State
deriving DecidableEq, Repr

namespace MeshLayout

/-! ## Accessors (inline in the header) -/

/-- Accessor `vkPipelineVertexInputStateCreateInfo()` (MeshLayout.h:299-305). -/
def vkPipelineVertexInputStateCreateInfo (l : MeshLayout) :
    VkPipelineVertexInputStateCreateInfo :=
  l._vertexInfo

/-- Accessor `vkPipelineInputAssemblyStateCreateInfo()` (MeshLayout.h:318-324). -/
def vkPipelineInputAssemblyStateCreateInfo (l : MeshLayout) :
    VkPipelineInputAssemblyStateCreateInfo :=
  l._assemblyInfo

/-! ## Constructors and mutators (bodies in MeshLayout.cpp) -/

/-- Modelled from the spec: the body of `MeshLayout::MeshLayout(MeshPrimitive)`,
absent from the sources. Section 4.1: "initializes input-assembly aggregate's
topology field; all other fields zero-valued"; MeshLayout.h:175-185: both
structures get their `sType`, the assembly one its `topology`, "everything
else is zero-filled". -/
def construct (primitive : MeshPrimitive) : MeshLayout :=
  { _vertexInfo :=
      { sType := VK_STRUCTURE_TYPE_PIPELINE_VERTEX_INPUT_STATE_CREATE_INFO
        pNext := .null
        flags := 0
        vertexBindingDescriptionCount := 0
        pVertexBindingDescriptions := .null
        vertexAttributeDescriptionCount := 0
        pVertexAttributeDescriptions := .null }
    _assemblyInfo :=
      { sType := VK_STRUCTURE_TYPE_PIPELINE_INPUT_ASSEMBLY_STATE_CREATE_INFO
        pNext := .null
        flags := 0
        topology := primitive.toVkPrimitiveTopology
        primitiveRestartEnable := false }
    _state := none }

/-- Modelled from the spec: the body of the constructor taking the two raw
aggregates, absent from the sources. MeshLayout.h:205-207: "Copies the
existing values verbatim, pointers are kept unchanged without taking over the
ownership"; section 8: "copy-through constructor preserves pointers/fields
verbatim without deep-copying pointed-to data". Nothing is owned, so no state
is allocated. -/
def constructFrom (vertexInfo : VkPipelineVertexInputStateCreateInfo)
    (assemblyInfo : VkPipelineInputAssemblyStateCreateInfo) : MeshLayout :=
  { _vertexInfo := vertexInfo, _assemblyInfo := assemblyInfo, _state := none }

/-- The private state, allocated on first use (section 4.1: "lazily allocates
on first use"). -/
def allocatedState (l : MeshLayout) : State :=
  l._state.getD State.empty

/-- Modelled from the spec: the body of `MeshLayout::addBinding`, absent from
the sources. Section 4.1: "appends a BindingDescriptor with inputRate =
PerVertex"; MeshLayout.h:232-238: "Adds a new VertexInputBindingDescription
structure to vkPipelineVertexInputStateCreateInfo()" with `binding`, `stride`
and `inputRate` set. The reference implementation does not check whether the
index is already used (section 4.1). -/
def addBinding (l : MeshLayout) (binding stride : Nat) : MeshLayout :=
  let s := l.allocatedState
  let bindings := s.bindings ++
    [{ binding := binding, stride := stride, inputRate := .VERTEX }]
  { l with
    _vertexInfo :=
      { l._vertexInfo with
        vertexBindingDescriptionCount := bindings.length
        pVertexBindingDescriptions := .bindings }
    _state := some { s with bindings := bindings } }

/-- Modelled from the spec: the body of `MeshLayout::addInstancedBinding`,
absent from the sources. Section 4.1: "appends a BindingDescriptor with
inputRate = PerInstance. If divisor ≠ 1, appends (or lazily allocates on
first use) a DivisorDescriptor entry and ensures the divisor-aggregate is
linked into the vertex-input aggregate's extension chain exactly once";
section 9: "attach by setting an optional reference once, guarded by an
internal flag so repeated attachment attempts are no-ops";
MeshLayout.h:257-266: "If divisor is not 1, a new
VertexInputBindingDivisorDescriptionEXT structure ... is added to
PipelineVertexInputDivisorStateCreateInfoEXT which is then referenced from the
pNext chain". The flag is the presence of the divisor block in the state.
Linking puts the block at the head of the chain, the previous head becoming
its successor. -/
def addInstancedBinding (l : MeshLayout) (binding stride divisor : Nat) : MeshLayout :=
  let s := l.allocatedState
  let bindings := s.bindings ++
    [{ binding := binding, stride := stride, inputRate := .INSTANCE }]
  let vertexInfo : VkPipelineVertexInputStateCreateInfo :=
    { l._vertexInfo with
      vertexBindingDescriptionCount := bindings.length
      pVertexBindingDescriptions := .bindings }
  if divisor ≠ 1 then
    let divisors := s.bindingDivisors ++ [{ binding := binding, divisor := divisor }]
    match s.divisorInfo with
    | none =>
      { l with
        _vertexInfo := { vertexInfo with pNext := .divisorInfo }
        _state := some
          { s with
            bindings := bindings
            bindingDivisors := divisors
            divisorInfo := some
              { sType := VK_STRUCTURE_TYPE_PIPELINE_VERTEX_INPUT_DIVISOR_STATE_CREATE_INFO_EXT
                pNext := l._vertexInfo.pNext
                vertexBindingDivisorCount := divisors.length
                pVertexBindingDivisors := .bindingDivisors } } }
    | some info =>
      { l with
        _vertexInfo := vertexInfo
        _state := some
          { s with
            bindings := bindings
            bindingDivisors := divisors
            divisorInfo := some
              { info with
                vertexBindingDivisorCount := divisors.length
                pVertexBindingDivisors := .bindingDivisors } } }
  else
    { l with
      _vertexInfo := vertexInfo
      _state := some { s with bindings := bindings } }

/-- Default value of the `divisor` parameter of `addInstancedBinding`
(MeshLayout.h:275): a call with two arguments passes this value. -/
def addInstancedBindingDefaultDivisor : Nat := 1

/-- Modelled from the spec: the body of `MeshLayout::addAttribute`, absent
from the sources. Section 4.1: "appends an AttributeDescriptor. Does not
validate that bindingIndex was previously registered"; MeshLayout.h:287-294:
"Adds a new VertexInputAttributeDescription structure" with `location`,
`binding`, `format` and `offset` set. -/
def addAttribute (l : MeshLayout) (location binding format offset : Nat) : MeshLayout :=
  let s := l.allocatedState
  let attributes := s.attributes ++
    [{ location := location, binding := binding, format := format, offset := offset }]
  { l with
    _vertexInfo :=
      { l._vertexInfo with
        vertexAttributeDescriptionCount := attributes.length
        pVertexAttributeDescriptions := .attributes }
    _state := some { s with attributes := attributes } }

/-! ## Reading the aggregates

What a consumer of the two aggregates sees when it follows their pointer
fields. A read gives `none` when the pointer leaves the storage of the
builder (its target is then not part of the builder) or dangles. -/

/-- Read `count` elements from the start of an array owned by the builder. -/
def readArray {α : Type} (storage : List α) (count : Nat) : Option (List α) :=
  if count ≤ storage.length then some (storage.take count) else none

/-- The binding list of the vertex-input aggregate: the
`vertexBindingDescriptionCount` descriptors at `pVertexBindingDescriptions`. -/
def vertexBindingDescriptions (l : MeshLayout) :
    Option (List VkVertexInputBindingDescription) :=
  match l._vertexInfo.pVertexBindingDescriptions with
  | .null => if l._vertexInfo.vertexBindingDescriptionCount = 0 then some [] else none
  | .bindings =>
    match l._state with
    | some s => readArray s.bindings l._vertexInfo.vertexBindingDescriptionCount
    | none => none
  | _ => none

/-- The attribute list of the vertex-input aggregate: the
`vertexAttributeDescriptionCount` descriptors at `pVertexAttributeDescriptions`. -/
def vertexAttributeDescriptions (l : MeshLayout) :
    Option (List VkVertexInputAttributeDescription) :=
  match l._vertexInfo.pVertexAttributeDescriptions with
  | .null => if l._vertexInfo.vertexAttributeDescriptionCount = 0 then some [] else none
  | .attributes =>
    match l._state with
    | some s => readArray s.attributes l._vertexInfo.vertexAttributeDescriptionCount
    | none => none
  | _ => none

/-- A block of an extension chain, as its consumer sees it. The only block the
builder ever links is the divisor block, seen with the divisor descriptors it
refers to. -/
inductive ExtensionBlock where
  | divisorState (divisors : List VkVertexInputBindingDivisorDescriptionEXT)
deriving DecidableEq, Repr

/-- The extension chain of the vertex-input aggregate, followed from its
`pNext` field until the null pointer. A block counts as the divisor block
when it carries the divisor structure-type tag. -/
def extensionChain (l : MeshLayout) : Option (List ExtensionBlock) :=
  match l._vertexInfo.pNext with
  | .null => some []
  | .divisorInfo =>
    match l._state with
    | none => none
    | some s =>
      match s.divisorInfo with
      | none => none
      | some info =>
        if info.sType = VK_STRUCTURE_TYPE_PIPELINE_VERTEX_INPUT_DIVISOR_STATE_CREATE_INFO_EXT then
          match info.pVertexBindingDivisors, info.pNext with
          | .bindingDivisors, .null =>
            (readArray s.bindingDivisors info.vertexBindingDivisorCount).map
              fun ds => [ExtensionBlock.divisorState ds]
          | _, _ => none
        else none
  | _ => none

/-- The divisor entries stored in the builder. -/
def divisorEntries (l : MeshLayout) : List VkVertexInputBindingDivisorDescriptionEXT :=
  l.allocatedState.bindingDivisors

/-- The aggregates of a builder describe exactly what the builder has stored:
the binding and attribute lists are the stored arrays, the extension chain is
empty when no divisor entry is stored and is the single divisor block with
all stored entries otherwise, and the divisor block exists exactly when an
entry is stored. -/
def WellFormed (l : MeshLayout) : Prop :=
  l.vertexBindingDescriptions = some l.allocatedState.bindings ∧
  l.vertexAttributeDescriptions = some l.allocatedState.attributes ∧
  l.extensionChain =
    some (if l.allocatedState.bindingDivisors = [] then []
          else [ExtensionBlock.divisorState l.allocatedState.bindingDivisors]) ∧
  (l.allocatedState.divisorInfo = none ↔ l.allocatedState.bindingDivisors = [])

instance (l : MeshLayout) : Decidable l.WellFormed := by
  unfold WellFormed
  infer_instance

end MeshLayout

/-- A vertex-input aggregate filled in by a caller, as the constructor from
existing data takes it (MeshLayout.h:202-209): `bindingCount` binding
descriptors and `attributeCount` attribute descriptors, both in arrays owned
by the caller, no extension chain. -/
def callerVertexInfo (bindingCount attributeCount : Nat) :
    VkPipelineVertexInputStateCreateInfo :=
  { sType := VK_STRUCTURE_TYPE_PIPELINE_VERTEX_INPUT_STATE_CREATE_INFO
    pNext := .null
    flags := 0
    vertexBindingDescriptionCount := bindingCount
    pVertexBindingDescriptions := .foreign 4096
    vertexAttributeDescriptionCount := attributeCount
    pVertexAttributeDescriptions := .foreign 8192 }

/-- The input-assembly aggregate a caller passes along with `callerVertexInfo`. -/
def callerAssemblyInfo : VkPipelineInputAssemblyStateCreateInfo :=
  (MeshLayout.construct MeshPrimitive.Triangles)._assemblyInfo

/-! ## Call sequences -/

/-- One call of a mutator of the builder, with its arguments. -/
inductive Call where
  | addBinding (binding stride : Nat)
  | addInstancedBinding (binding stride divisor : Nat)
  | addAttribute (location binding format offset : Nat)
deriving DecidableEq, Repr

/-- Perform one call on a builder. -/
def Call.apply (l : MeshLayout) : Call → MeshLayout
  | .addBinding binding stride => l.addBinding binding stride
  | .addInstancedBinding binding stride divisor => l.addInstancedBinding binding stride divisor
  | .addAttribute location binding format offset =>
    l.addAttribute location binding format offset

/-- The builder obtained from `construct(primitive)` by a chain of calls, the
first call of the list first. -/
def build (primitive : MeshPrimitive) (calls : List Call) : MeshLayout :=
  calls.foldl Call.apply (MeshLayout.construct primitive)

/-- The divisor entry a call asks for: the (binding, divisor) pair of an
`addInstancedBinding` call whose divisor is not 1. -/
def Call.divisorEntry : Call → Option VkVertexInputBindingDivisorDescriptionEXT
  | .addInstancedBinding binding _ divisor =>
    if divisor ≠ 1 then some { binding := binding, divisor := divisor } else none
  | _ => none

/-- The binding descriptor a call asks for. -/
def Call.bindingDescription : Call → Option VkVertexInputBindingDescription
  | .addBinding binding stride =>
    some { binding := binding, stride := stride, inputRate := .VERTEX }
  | .addInstancedBinding binding stride _ =>
    some { binding := binding, stride := stride, inputRate := .INSTANCE }
  | .addAttribute _ _ _ _ => none

/-- The attribute descriptor a call asks for. -/
def Call.attributeDescription : Call → Option VkVertexInputAttributeDescription
  | .addAttribute location binding format offset =>
    some { location := location, binding := binding, format := format, offset := offset }
  | _ => none

/-- The binding index a call registers, for the two binding calls. -/
def Call.bindingIndex : Call → Option Nat
  | .addBinding binding _ => some binding
  | .addInstancedBinding binding _ _ => some binding
  | .addAttribute _ _ _ _ => none

/-- The binding indices carried by the binding descriptors of the vertex-input
aggregate, in order. -/
def MeshLayout.bindingIndices (l : MeshLayout) : List Nat :=
  (l.vertexBindingDescriptions.getD []).map fun d => d.binding

/-- Whether the extension chain of the vertex-input aggregate holds a divisor
block. -/
def MeshLayout.containsDivisorBlock (l : MeshLayout) : Bool :=
  match l.extensionChain with
  | some chain => chain.any fun block =>
      match block with
      | .divisorState _ => true
  | none => false

/-! ## Moving and observing the builder -/

namespace Memory

/-- An address held by a pointer field in memory. An address inside a `State`
names the allocation by the heap address of the `State` and the member pointed
to. -/
inductive Address where
  /-- The null pointer. -/
  | null
  /-- An address in memory owned by the caller. -/
  | foreign (addr : Nat)
  /-- Start of the binding descriptor array of the `State` allocated at `state`. -/
  | bindings (state : Nat)
  /-- Start of the attribute descriptor array of the `State` allocated at `state`. -/
  | attributes (state : Nat)
  /-- Start of the divisor descriptor array of the `State` allocated at `state`. -/
  | bindingDivisors (state : Nat)
  /-- Address of the divisor block of the `State` allocated at `state`. -/
  | divisorInfo (state : Nat)
deriving DecidableEq, Repr

/-- The divisor block `VkPipelineVertexInputDivisorStateCreateInfoEXT` as it
lies in memory. -/
structure VkPipelineVertexInputDivisorStateCreateInfoEXT where
  sType : Nat
  pNext : Address
  vertexBindingDivisorCount : Nat
  pVertexBindingDivisors : Address
deriving DecidableEq, Repr

/-- The vertex-input aggregate `VkPipelineVertexInputStateCreateInfo` as it
lies in memory. -/
structure VkPipelineVertexInputStateCreateInfo where
  sType : Nat
  pNext : Address
  flags : Nat
  vertexBindingDescriptionCount : Nat
  pVertexBindingDescriptions : Address
  vertexAttributeDescriptionCount : Nat
  pVertexAttributeDescriptions : Address
deriving DecidableEq, Repr

/-- The input-assembly aggregate `VkPipelineInputAssemblyStateCreateInfo` as it
lies in memory. -/
structure VkPipelineInputAssemblyStateCreateInfo where
  sType : Nat
  pNext : Address
  flags : Nat
  topology : Nat
  primitiveRestartEnable : Bool
deriving DecidableEq, Repr

/-- The contents of a `MeshLayout::State` allocation. -/
structure State where
  bindings : List Vk.VkVertexInputBindingDescription
  bindingDivisors : List Vk.VkVertexInputBindingDivisorDescriptionEXT
  attributes : List Vk.VkVertexInputAttributeDescription
  divisorInfo : Option VkPipelineVertexInputDivisorStateCreateInfoEXT
deriving DecidableEq, Repr

/-- A `MeshLayout` object in memory (MeshLayout.h:330-335): the two aggregates
and the owning pointer `_state`, which is null (`none`) or holds the heap
address of the `State` the builder owns; the contents of that allocation are
kept with its address, the builder being its only owner. -/
structure MeshLayout where
  _vertexInfo : VkPipelineVertexInputStateCreateInfo
  _assemblyInfo : VkPipelineInputAssemblyStateCreateInfo
  _state : Option (Nat × State)
deriving DecidableEq, Repr

namespace MeshLayout

/-- The binding list a consumer reads through the vertex-input aggregate. A
read gives `none` when the pointer does not lead into the `State` the builder
owns: nothing keeps other storage alive. -/
def vertexBindingDescriptions (b : MeshLayout) :
    Option (List Vk.VkVertexInputBindingDescription) :=
  match b._vertexInfo.pVertexBindingDescriptions with
  | .null => if b._vertexInfo.vertexBindingDescriptionCount = 0 then some [] else none
  | .bindings state =>
    match b._state with
    | some (own, s) =>
      if state = own then
        Vk.MeshLayout.readArray s.bindings b._vertexInfo.vertexBindingDescriptionCount
      else none
    | none => none
  | _ => none

/-- The attribute list a consumer reads through the vertex-input aggregate. -/
def vertexAttributeDescriptions (b : MeshLayout) :
    Option (List Vk.VkVertexInputAttributeDescription) :=
  match b._vertexInfo.pVertexAttributeDescriptions with
  | .null => if b._vertexInfo.vertexAttributeDescriptionCount = 0 then some [] else none
  | .attributes state =>
    match b._state with
    | some (own, s) =>
      if state = own then
        Vk.MeshLayout.readArray s.attributes b._vertexInfo.vertexAttributeDescriptionCount
      else none
    | none => none
  | _ => none

/-- The extension chain a consumer follows from `pNext` of the vertex-input
aggregate. -/
def extensionChain (b : MeshLayout) : Option (List Vk.MeshLayout.ExtensionBlock) :=
  match b._vertexInfo.pNext with
  | .null => some []
  | .divisorInfo state =>
    match b._state with
    | none => none
    | some (own, s) =>
      if state = own then
        match s.divisorInfo with
        | none => none
        | some info =>
          if info.sType =
              VK_STRUCTURE_TYPE_PIPELINE_VERTEX_INPUT_DIVISOR_STATE_CREATE_INFO_EXT then
            match info.pVertexBindingDivisors, info.pNext with
            | .bindingDivisors entries, .null =>
              if entries = own then
                (Vk.MeshLayout.readArray s.bindingDivisors info.vertexBindingDivisorCount).map
                  fun ds => [Vk.MeshLayout.ExtensionBlock.divisorState ds]
              else none
            | _, _ => none
          else none
      else none
  | _ => none

/-- The divisor entries stored in the `State` the builder owns. -/
def divisorEntries (b : MeshLayout) : List Vk.VkVertexInputBindingDivisorDescriptionEXT :=
  match b._state with
  | some (_, s) => s.bindingDivisors
  | none => []

end MeshLayout
end Memory

/-- The two accessors of the builder. -/
inductive Access where
  | vertexInfo
  | assemblyInfo
deriving DecidableEq, Repr

/-- What an accessor returns. -/
inductive Aggregate where
  | vertexInput (info : VkPipelineVertexInputStateCreateInfo)
  | inputAssembly (info : VkPipelineInputAssemblyStateCreateInfo)
deriving DecidableEq, Repr

/-- A call of an accessor as a step on the builder: the value returned and the
builder afterwards. The bodies (MeshLayout.h:299-328) are a single `return` of
a member or of its address; they assign nothing. -/
def MeshLayout.access (l : MeshLayout) : Access → Aggregate × MeshLayout
  | .vertexInfo => (.vertexInput l.vkPipelineVertexInputStateCreateInfo, l)
  | .assemblyInfo => (.inputAssembly l.vkPipelineInputAssemblyStateCreateInfo, l)

/-- The builder after a sequence of accessor calls. -/
def MeshLayout.accessAll (l : MeshLayout) (reads : List Access) : MeshLayout :=
  reads.foldl (fun b a => (b.access a).2) l

end Vk

/-! ## Generic enums (Magnum/Mesh.h, Magnum/Sampler.h) -/

/-- Modelled from the spec: the values of the enumerators of the generic
`Magnum::MeshPrimitive`, declared in Magnum/Mesh.h, which is absent. The enum
is handled through its `UnsignedInt` value, as Enums.cpp does. Points is 1 and
the enumerators follow in the order of the entries of
`PrimitiveTopologyMapping` and of its comments (Enums.cpp:42-53). -/
def MeshPrimitive.Points : Nat := 1

/-- Generic primitive `Lines`. -/
def MeshPrimitive.Lines : Nat := 2

/-- Generic primitive `LineLoop`. -/
def MeshPrimitive.LineLoop : Nat := 3

/-- Generic primitive `LineStrip`. -/
def MeshPrimitive.LineStrip : Nat := 4

/-- Generic primitive `Triangles`. -/
def MeshPrimitive.Triangles : Nat := 5

/-- Generic primitive `TriangleStrip`. -/
def MeshPrimitive.TriangleStrip : Nat := 6

/-- Generic primitive `TriangleFan`. -/
def MeshPrimitive.TriangleFan : Nat := 7

/-- Generic primitive `Instances`. -/
def MeshPrimitive.Instances : Nat := 8

/-- Generic primitive `Faces`. -/
def MeshPrimitive.Faces : Nat := 9

/-- Generic primitive `Edges`. -/
def MeshPrimitive.Edges : Nat := 10

/-- Modelled from the spec: the values of the enumerators of
`Magnum::MeshIndexType` (Magnum/Mesh.h, absent), in the order of the entries
of `IndexTypeMapping` (Enums.cpp:55-59), the first being 1. -/
def MeshIndexType.UnsignedByte : Nat := 1

/-- Index type `UnsignedShort`. -/
def MeshIndexType.UnsignedShort : Nat := 2

/-- Index type `UnsignedInt`. -/
def MeshIndexType.UnsignedInt : Nat := 3

/-- Modelled from the spec: the values of the enumerators of
`Magnum::SamplerMipmap` (Magnum/Sampler.h, absent), in the order of the
entries of `SamplerMipmapModeMapping` (Enums.cpp:66-70), the first being 0. -/
def SamplerMipmap.Base : Nat := 0

/-- Mipmap mode `Nearest`. -/
def SamplerMipmap.Nearest : Nat := 1

/-- Mipmap mode `Linear`. -/
def SamplerMipmap.Linear : Nat := 2

/-- Modelled from the spec: the values of the enumerators of
`Magnum::SamplerWrapping` (Magnum/Sampler.h, absent), in the order of the
entries of `SamplerAddressModeMapping` (Enums.cpp:72-78), the first being 0. -/
def SamplerWrapping.Repeat : Nat := 0

/-- Wrapping `MirroredRepeat`. -/
def SamplerWrapping.MirroredRepeat : Nat := 1

/-- Wrapping `ClampToEdge`. -/
def SamplerWrapping.ClampToEdge : Nat := 2

/-- Wrapping `ClampToBorder`. -/
def SamplerWrapping.ClampToBorder : Nat := 3

/-- Wrapping `MirrorClampToEdge`. -/
def SamplerWrapping.MirrorClampToEdge : Nat := 4

namespace Vk

/-! ## Enum translation (Enums.cpp) -/

/-- Outcome of a failed `CORRADE_ASSERT` of Enums.cpp: the message is printed
and the call does not give a result. The two kinds are told apart by the
message, which names the calling function and then says either "invalid ..."
(the value is outside the table) or "unsupported ..." (the table holds the
sentinel for the value). -/
inductive AssertionFailure where
  | invalid
  | unsupported
deriving DecidableEq, Repr

deriving instance DecidableEq for Except

/-- The sentinel `~UnsignedInt{}`, all 32 bits set. -/
def unsupportedSentinel : Nat := 4294967295

/-- Subtraction of 32-bit unsigned integers, wrapping around below zero
(4294967296 is 2^32). -/
def wrappingSub (a b : Nat) : Nat :=
  (a + 4294967296 - b) % 4294967296

/-- Vulkan constant `VK_PRIMITIVE_TOPOLOGY_POINT_LIST`. -/
def VK_PRIMITIVE_TOPOLOGY_POINT_LIST : Nat := 0

/-- Vulkan constant `VK_PRIMITIVE_TOPOLOGY_LINE_LIST`. -/
def VK_PRIMITIVE_TOPOLOGY_LINE_LIST : Nat := 1

/-- Vulkan constant `VK_PRIMITIVE_TOPOLOGY_LINE_STRIP`. -/
def VK_PRIMITIVE_TOPOLOGY_LINE_STRIP : Nat := 2

/-- Vulkan constant `VK_PRIMITIVE_TOPOLOGY_TRIANGLE_LIST`. -/
def VK_PRIMITIVE_TOPOLOGY_TRIANGLE_LIST : Nat := 3

/-- Vulkan constant `VK_PRIMITIVE_TOPOLOGY_TRIANGLE_STRIP`. -/
def VK_PRIMITIVE_TOPOLOGY_TRIANGLE_STRIP : Nat := 4

/-- Vulkan constant `VK_PRIMITIVE_TOPOLOGY_TRIANGLE_FAN`. -/
def VK_PRIMITIVE_TOPOLOGY_TRIANGLE_FAN : Nat := 5

/-- Vulkan constant `VK_INDEX_TYPE_UINT16`. -/
def VK_INDEX_TYPE_UINT16 : Nat := 0

/-- Vulkan constant `VK_INDEX_TYPE_UINT32`. -/
def VK_INDEX_TYPE_UINT32 : Nat := 1

/-- Vulkan constant `VK_INDEX_TYPE_UINT8_EXT`. -/
def VK_INDEX_TYPE_UINT8_EXT : Nat := 1000265000

/-- Vulkan constant `VK_SAMPLER_MIPMAP_MODE_NEAREST`. -/
def VK_SAMPLER_MIPMAP_MODE_NEAREST : Nat := 0

/-- Vulkan constant `VK_SAMPLER_MIPMAP_MODE_LINEAR`. -/
def VK_SAMPLER_MIPMAP_MODE_LINEAR : Nat := 1

/-- Vulkan constant `VK_SAMPLER_ADDRESS_MODE_REPEAT`. -/
def VK_SAMPLER_ADDRESS_MODE_REPEAT : Nat := 0

/-- Vulkan constant `VK_SAMPLER_ADDRESS_MODE_MIRRORED_REPEAT`. -/
def VK_SAMPLER_ADDRESS_MODE_MIRRORED_REPEAT : Nat := 1

/-- Vulkan constant `VK_SAMPLER_ADDRESS_MODE_CLAMP_TO_EDGE`. -/
def VK_SAMPLER_ADDRESS_MODE_CLAMP_TO_EDGE : Nat := 2

/-- Vulkan constant `VK_SAMPLER_ADDRESS_MODE_CLAMP_TO_BORDER`. -/
def VK_SAMPLER_ADDRESS_MODE_CLAMP_TO_BORDER : Nat := 3

/-- Vulkan constant `VK_SAMPLER_ADDRESS_MODE_MIRROR_CLAMP_TO_EDGE`. -/
def VK_SAMPLER_ADDRESS_MODE_MIRROR_CLAMP_TO_EDGE : Nat := 4

/-- Table `PrimitiveTopologyMapping` (Enums.cpp:42-53). -/
def PrimitiveTopologyMapping : List Nat :=
  [VK_PRIMITIVE_TOPOLOGY_POINT_LIST,
   VK_PRIMITIVE_TOPOLOGY_LINE_LIST,
   unsupportedSentinel,
   VK_PRIMITIVE_TOPOLOGY_LINE_STRIP,
   VK_PRIMITIVE_TOPOLOGY_TRIANGLE_LIST,
   VK_PRIMITIVE_TOPOLOGY_TRIANGLE_STRIP,
   VK_PRIMITIVE_TOPOLOGY_TRIANGLE_FAN,
   unsupportedSentinel,
   unsupportedSentinel,
   unsupportedSentinel]

/-- Table `IndexTypeMapping` (Enums.cpp:55-59). -/
def IndexTypeMapping : List Nat :=
  [VK_INDEX_TYPE_UINT8_EXT, VK_INDEX_TYPE_UINT16, VK_INDEX_TYPE_UINT32]

/-- Table `SamplerMipmapModeMapping` (Enums.cpp:66-70). -/
def SamplerMipmapModeMapping : List Nat :=
  [VK_SAMPLER_MIPMAP_MODE_NEAREST,
   VK_SAMPLER_MIPMAP_MODE_NEAREST,
   VK_SAMPLER_MIPMAP_MODE_LINEAR]

/-- Table `SamplerAddressModeMapping` (Enums.cpp:72-78). -/
def SamplerAddressModeMapping : List Nat :=
  [VK_SAMPLER_ADDRESS_MODE_REPEAT,
   VK_SAMPLER_ADDRESS_MODE_MIRRORED_REPEAT,
   VK_SAMPLER_ADDRESS_MODE_CLAMP_TO_EDGE,
   VK_SAMPLER_ADDRESS_MODE_CLAMP_TO_BORDER,
   VK_SAMPLER_ADDRESS_MODE_MIRROR_CLAMP_TO_EDGE]

/-- Function `hasVkPrimitiveTopology` (Enums.cpp:82-89). The predicate
`isMeshPrimitiveImplementationSpecific` of Magnum/Mesh.h is absent from the
sources and is a parameter. -/
def hasVkPrimitiveTopology (isMeshPrimitiveImplementationSpecific : Nat → Bool)
    (primitive : Nat) : Except AssertionFailure Bool :=
  if isMeshPrimitiveImplementationSpecific primitive then .ok true
  else if h : wrappingSub primitive 1 < PrimitiveTopologyMapping.length then
    .ok (PrimitiveTopologyMapping[wrappingSub primitive 1] != unsupportedSentinel)
  else .error .invalid

/-- Function `vkPrimitiveTopology` (Enums.cpp:91-101). The predicate
`isMeshPrimitiveImplementationSpecific` and the function `meshPrimitiveUnwrap`
of Magnum/Mesh.h are absent from the sources and are parameters. -/
def vkPrimitiveTopology (isMeshPrimitiveImplementationSpecific : Nat → Bool)
    (meshPrimitiveUnwrap : Nat → Nat) (primitive : Nat) : Except AssertionFailure Nat :=
  if isMeshPrimitiveImplementationSpecific primitive then .ok (meshPrimitiveUnwrap primitive)
  else if h : wrappingSub primitive 1 < PrimitiveTopologyMapping.length then
    let out := PrimitiveTopologyMapping[wrappingSub primitive 1]
    if out ≠ unsupportedSentinel then .ok out else .error .unsupported
  else .error .invalid

/-- Function `hasVkIndexType` (Enums.cpp:103-107). -/
def hasVkIndexType (type : Nat) : Except AssertionFailure Bool :=
  if h : wrappingSub type 1 < IndexTypeMapping.length then
    .ok (IndexTypeMapping[wrappingSub type 1] != unsupportedSentinel)
  else .error .invalid

/-- Function `vkIndexType` (Enums.cpp:109-116). -/
def vkIndexType (type : Nat) : Except AssertionFailure Nat :=
  if h : wrappingSub type 1 < IndexTypeMapping.length then
    let out := IndexTypeMapping[wrappingSub type 1]
    if out ≠ unsupportedSentinel then .ok out else .error .unsupported
  else .error .invalid

/-- Function `vkSamplerMipmapMode` (Enums.cpp:152-156). -/
def vkSamplerMipmapMode (mipmap : Nat) : Except AssertionFailure Nat :=
  if h : mipmap < SamplerMipmapModeMapping.length then
    .ok SamplerMipmapModeMapping[mipmap]
  else .error .invalid

/-- Function `hasVkSamplerAddressMode` (Enums.cpp:158-162). -/
def hasVkSamplerAddressMode (wrapping : Nat) : Except AssertionFailure Bool :=
  if h : wrapping < SamplerAddressModeMapping.length then
    .ok (SamplerAddressModeMapping[wrapping] != unsupportedSentinel)
  else .error .invalid

/-- Function `vkSamplerAddressMode` (Enums.cpp:164-171). -/
def vkSamplerAddressMode (wrapping : Nat) : Except AssertionFailure Nat :=
  if h : wrapping < SamplerAddressModeMapping.length then
    let out := SamplerAddressModeMapping[wrapping]
    if out ≠ unsupportedSentinel then .ok out else .error .unsupported
  else .error .invalid

/-- A valid mesh primitive: implementation-specific, or one of the ten generic
values 1 to 10. -/
def validMeshPrimitive (isMeshPrimitiveImplementationSpecific : Nat → Bool)
    (primitive : Nat) : Prop :=
  isMeshPrimitiveImplementationSpecific primitive = true ∨ (1 ≤ primitive ∧ primitive ≤ 10)

/-- The highest of the 32 bits of a value is set. Used as an example of an
implementation-specific test. -/
def highBitSet (value : Nat) : Bool :=
  decide (2147483648 ≤ value % 4294967296)

/-- The value without its highest bit. Used as an example of an unwrapping. -/
def clearHighBit (value : Nat) : Nat :=
  value % 2147483648

end Vk

namespace Math

/-! ## Complex numbers (Math/Complex.h)

The class template is embedded over an arbitrary scalar type with the
arithmetic operations the member functions use. -/

/-- Class template `Complex<T>` (Complex.h:38-359), with its two private
members. -/
@[ext]
structure Complex (T : Type) where
  _real : T
  _imaginary : T
deriving DecidableEq, Repr

namespace Complex

/-- Default constructor (Complex.h:88), the unit complex number `1 + i0`. -/
def unit {T : Type} [One T] [Zero T] : Complex T :=
  { _real := 1, _imaginary := 0 }

/-- Accessor `real()` (Complex.h:121). -/
def real {T : Type} (c : Complex T) : T :=
  c._real

/-- Accessor `imaginary()` (Complex.h:124). -/
def imaginary {T : Type} (c : Complex T) : T :=
  c._imaginary

/-- Static function `dot(a, b)` (Complex.h:50-52). -/
def dotProduct {T : Type} [Add T] [Mul T] (a b : Complex T) : T :=
  a._real * b._real + a._imaginary * b._imaginary

/-- Operators `operator/=(T)` and `operator/(T)` (Complex.h:249-262). -/
def divScalar {T : Type} [Div T] (c : Complex T) (scalar : T) : Complex T :=
  { _real := c._real / scalar, _imaginary := c._imaginary / scalar }

instance {T : Type} [Div T] : HDiv (Complex T) T (Complex T) :=
  ⟨divScalar⟩

/-- Operator `operator*(const Complex&)` (Complex.h:271-274). -/
def mul {T : Type} [Add T] [Sub T] [Mul T] (c other : Complex T) : Complex T :=
  { _real := c._real * other._real - c._imaginary * other._imaginary
    _imaginary := c._imaginary * other._real + c._real * other._imaginary }

instance {T : Type} [Add T] [Sub T] [Mul T] : Mul (Complex T) :=
  ⟨mul⟩

/-- Member function `dot()` (Complex.h:285-287). -/
def dot {T : Type} [Add T] [Mul T] (c : Complex T) : T :=
  dotProduct c c

/-- Member function `conjugated()` (Complex.h:313-315). -/
def conjugated {T : Type} [Neg T] (c : Complex T) : Complex T :=
  { _real := c._real, _imaginary := -c._imaginary }

/-- Member function `inverted()` (Complex.h:325-327). -/
def inverted {T : Type} [Add T] [Mul T] [Neg T] [Div T] (c : Complex T) : Complex T :=
  c.conjugated / c.dot

end Complex

/-! ## Preconditions checked with `CORRADE_ASSERT`

The macro belongs to the Corrade library. It is taken as section 9 of the
specification describes it for the math types: when the condition fails, the
diagnostic is logged and the fallback value given to the macro is returned;
nothing is aborted. A failed check is an error result that carries both. -/

/-- What a function returns when its `CORRADE_ASSERT` fails: the diagnostic
logged and the fallback value returned to the caller. -/
structure AssertionReturn (α : Type) where
  message : String
  value : α
deriving DecidableEq, Repr

/-- Two-component vector `Vector2<T>` (Math/Vector2.h, absent from the
sources), with the components read by `x()` and `y()`; also stands for
`Vector<2, T>` built from two values. -/
@[ext]
structure Vector2 (T : Type) where
  x : T
  y : T
deriving DecidableEq, Repr

/-- Matrix `Matrix<2, T>` (Math/Matrix.h, absent from the sources), built from
its two column vectors as `toMatrix()` does (Complex.h:160-163). -/
@[ext]
structure Matrix2 (T : Type) where
  column0 : Vector2 T
  column1 : Vector2 T
deriving DecidableEq, Repr

/-- The entries of a `Matrix2`, row by row: entry (i, j) is component i of
column j. -/
def Matrix2.entries {T : Type} (m : Matrix2 T) : Matrix (Fin 2) (Fin 2) T :=
  Matrix.of ![![m.column0.x, m.column1.x], ![m.column0.y, m.column1.y]]

namespace Complex

/-- Diagnostic of `invertedNormalized()` (Complex.h:340). -/
def invertedNormalizedMessage : String :=
  "Math::Complex::invertedNormalized(): complex number must be normalized"

/-- Diagnostic of `angle()` (Complex.h:64). -/
def angleMessage : String :=
  "Math::Complex::angle(): complex numbers must be normalized"

/-- Static function `angle(normalizedA, normalizedB)` (Complex.h:62-66). The
comparison `MathTypeTraits<T>::equals`, the value
`std::numeric_limits<T>::quiet_NaN()` and the function `std::acos` are not part
of the sources and are parameters; `Rad<T>` is its underlying value. -/
def angle {T : Type} [Add T] [Mul T] [One T] (equals : T → T → Bool) (quietNaN : T)
    (acos : T → T) (normalizedA normalizedB : Complex T) : Except (AssertionReturn T) T :=
  if equals normalizedA.dot 1 && equals normalizedB.dot 1 then
    .ok (acos (normalizedA._real * normalizedB._real +
      normalizedA._imaginary * normalizedB._imaginary))
  else .error { message := angleMessage, value := quietNaN }

/-- Constructor `Complex(const Vector2<T>&)` (Complex.h:107). -/
def ofVector2 {T : Type} (vector : Vector2 T) : Complex T :=
  { _real := vector.x, _imaginary := vector.y }

/-- Conversion `operator Vector2<T>()` (Complex.h:133-135). -/
def toVector2 {T : Type} (c : Complex T) : Vector2 T :=
  { x := c._real, y := c._imaginary }

/-- Member function `toMatrix()` (Complex.h:160-163). -/
def toMatrix {T : Type} [Neg T] (c : Complex T) : Matrix2 T :=
  { column0 := { x := c._real, y := c._imaginary }
    column1 := { x := -c._imaginary, y := c._real } }

/-- Member function `length()` (Complex.h:297-299). The function `std::hypot`
is a parameter. -/
def length {T : Type} (hypot : T → T → T) (c : Complex T) : T :=
  hypot c._real c._imaginary

/-- Member function `normalized()` (Complex.h:302-304). -/
def normalized {T : Type} [Div T] (hypot : T → T → T) (c : Complex T) : Complex T :=
  c / c.length hypot

/-- Member function `invertedNormalized()` (Complex.h:338-343). The comparison
`MathTypeTraits<T>::equals` and the value
`std::numeric_limits<T>::quiet_NaN()` are not part of the sources and are
parameters; `{}` is the zero of the scalar type. -/
def invertedNormalized {T : Type} [Add T] [Mul T] [Neg T] [One T] [Zero T]
    (equals : T → T → Bool) (quietNaN : T) (c : Complex T) :
    Except (AssertionReturn (Complex T)) (Complex T) :=
  if equals c.dot 1 then .ok c.conjugated
  else .error
    { message := invertedNormalizedMessage
      value := { _real := quietNaN, _imaginary := 0 } }

/-- Member function `transformVector()` (Complex.h:353-355). -/
def transformVector {T : Type} [Add T] [Sub T] [Mul T] (c : Complex T)
    (vector : Vector2 T) : Vector2 T :=
  toVector2 (c * ofVector2 vector)

/-- Free operator `operator/(T, const Complex<T>&)` (Complex.h:378-380). -/
def scalarDiv {T : Type} [Div T] (scalar : T) (complex : Complex T) : Complex T :=
  { _real := scalar / complex.real, _imaginary := scalar / complex.imaginary }

end Complex

/-! ## Vectors (Math/Vector.h)

The header is not part of the sources; its test Math/Test/VectorTest.cpp is.
The operations below are the ones the test calls, defined so that they give
what the test expects. -/

/-- Modelled from the spec: the class template `Vector<size, T>` of
Math/Vector.h, absent from the sources: `size` components of type `T`, read by
index (VectorTest.cpp:138-146). -/
@[ext]
structure Vector (size : Nat) (T : Type) where
  _data : Fin size → T

/-- Modelled from the spec: the class template `BoolVector<size>` of
Math/BoolVector.h, absent from the sources: one bit per component
(VectorTest.cpp:184-190). -/
@[ext]
structure BoolVector (size : Nat) where
  _data : Fin size → Bool
deriving DecidableEq

/-- Modelled from the spec: the constructor of `BoolVector<size>` from a bit
mask, as in `BoolVector3(0x1)` (VectorTest.cpp:186): bit `i` of the mask is the
bit of component `i`. -/
def BoolVector.ofMask {size : Nat} (mask : Nat) : BoolVector size :=
  { _data := fun i => mask.testBit i }

/-- Modelled from the spec: bitwise complement of a `BoolVector<size>` over its
`size` bits. -/
def BoolVector.complement {size : Nat} (v : BoolVector size) : BoolVector size :=
  { _data := fun i => !v._data i }

/-- Modelled from the spec: a value of a floating-point component type. It is
NaN, which the math types return on a failed precondition (section 9 of the
specification) and which compares unequal to itself (VectorTest.cpp:296), or a
number of the ordered type `T`: the values of the type other than NaN, the
two infinities included, with their order. -/
inductive Floating (T : Type) where
  | nan
  | number (value : T)
deriving DecidableEq, Repr

namespace Floating

/-- Comparison `<` of two floating-point values: that of the numbers, and false
as soon as an operand is NaN. -/
def lt {T : Type} [LT T] : Floating T → Floating T → Prop
  | number x, number y => x < y
  | _, _ => False

/-- Comparison `<=` of two floating-point values: that of the numbers, and
false as soon as an operand is NaN. -/
def le {T : Type} [LE T] : Floating T → Floating T → Prop
  | number x, number y => x ≤ y
  | _, _ => False

instance {T : Type} [LT T] : LT (Floating T) :=
  ⟨lt⟩

instance {T : Type} [LE T] : LE (Floating T) :=
  ⟨le⟩

instance {T : Type} [LT T] [DecidableRel fun a b : T => a < b] :
    DecidableRel fun a b : Floating T => a < b
  | nan, nan => isFalse fun h => h
  | nan, number _ => isFalse fun h => h
  | number _, nan => isFalse fun h => h
  | number x, number y => if h : x < y then isTrue h else isFalse h

instance {T : Type} [LE T] [DecidableRel fun a b : T => a ≤ b] :
    DecidableRel fun a b : Floating T => a ≤ b
  | nan, nan => isFalse fun h => h
  | nan, number _ => isFalse fun h => h
  | number _, nan => isFalse fun h => h
  | number x, number y => if h : x ≤ y then isTrue h else isFalse h

/-- The lesser of two floating-point values as `std::min(a, b)` gives it:
`b` when `b < a`, otherwise `a`. -/
instance {T : Type} [LT T] [DecidableRel fun a b : T => a < b] : Min (Floating T) :=
  ⟨fun a b => if b < a then b else a⟩

/-- The greater of two floating-point values as `std::max(a, b)` gives it:
`b` when `a < b`, otherwise `a`. -/
instance {T : Type} [LT T] [DecidableRel fun a b : T => a < b] : Max (Floating T) :=
  ⟨fun a b => if a < b then b else a⟩

/-- A function of numbers such as `std::abs`, taken to floating-point values:
NaN is mapped to NaN. -/
def map {T : Type} (f : T → T) : Floating T → Floating T
  | nan => nan
  | number x => number (f x)

end Floating

/-- Modelled from the spec: a binary floating-point format, which fixes the
finite values of a floating-point component type and the rounding of its
arithmetic (IEEE 754): the significand has `precision` bits, the least
positive value is 2 to the `minExponent`, and every finite value is below
2 to the `maxExponent` in magnitude. -/
structure FloatFormat where
  precision : Nat
  minExponent : ℤ
  maxExponent : ℤ
deriving DecidableEq, Repr

/-- The format of `Double`, IEEE 754 binary64. -/
def FloatFormat.binary64 : FloatFormat :=
  { precision := 53, minExponent := -1074, maxExponent := 1024 }

namespace Vector

/-- Diagnostic of `projectedOntoNormalized()` (VectorTest.cpp:297). -/
def projectedOntoNormalizedMessage : String :=
  "Math::Vector::projectedOntoNormalized(): line must be normalized"

/-- Modelled from the spec: static `Vector::dot(a, b)` of Math/Vector.h, absent
from the sources: the sum of the products of the components
(VectorTest.cpp:235-237: 15.25 for (1, 0.5, 0.75, 1.5) and (2, 4, 1, 7)). -/
def dotProduct {size : Nat} {T : Type} [AddCommMonoid T] [Mul T] (a b : Vector size T) : T :=
  Finset.univ.sum fun i => a._data i * b._data i

/-- Modelled from the spec: member `Vector::dot()` of Math/Vector.h, absent from
the sources (VectorTest.cpp:239-241: 30 for (1, 2, 3, 4)). -/
def dot {size : Nat} {T : Type} [AddCommMonoid T] [Mul T] (v : Vector size T) : T :=
  dotProduct v v

/-- Modelled from the spec: `operator*(number)` of Math/Vector.h, absent from
the sources, for a scalar of the component type: each component times the
scalar (VectorTest.cpp:209). -/
def mulScalar {size : Nat} {T : Type} [Mul T] (v : Vector size T) (number : T) :
    Vector size T :=
  { _data := fun i => v._data i * number }

/-- Modelled from the spec: `operator*(number, vector)` of Math/Vector.h, absent
from the sources (VectorTest.cpp:210); like its counterpart for complex
numbers (Complex.h:366-368) it is `vector*number`. -/
def scalarMul {size : Nat} {T : Type} [Mul T] (number : T) (vector : Vector size T) :
    Vector size T :=
  vector.mulScalar number

/-- Modelled from the spec: `operator/(number)` of Math/Vector.h, absent from
the sources, for a scalar of the component type: each component divided by the
scalar (VectorTest.cpp:211). -/
def divScalar {size : Nat} {T : Type} [Div T] (v : Vector size T) (number : T) :
    Vector size T :=
  { _data := fun i => v._data i / number }

/-- The vector of the component values, when every component has one. -/
def collect {size : Nat} {T : Type} (components : Fin size → Option T) :
    Option (Vector size T) :=
  if h : ∀ i, (components i).isSome = true then
    some { _data := fun i => (components i).get (h i) }
  else none

/-- Modelled from the spec: member `Vector::length()` of Math/Vector.h, absent
from the sources: the square root of `dot()` (VectorTest.cpp:243-245). The
square root function is a parameter. -/
def length {size : Nat} {T : Type} [AddCommMonoid T] [Mul T] (sqrt : T → T)
    (v : Vector size T) : T :=
  sqrt v.dot

/-- Modelled from the spec: member `Vector::normalized()` of Math/Vector.h,
absent from the sources: the vector divided by its length
(VectorTest.cpp:247-249), as `Complex::normalized()` does (Complex.h:302-304). -/
def normalized {size : Nat} {T : Type} [AddCommMonoid T] [Mul T] [Div T] (sqrt : T → T)
    (v : Vector size T) : Vector size T :=
  v.divScalar (v.length sqrt)

/-- Modelled from the spec: member `Vector::projected(line)` of Math/Vector.h,
absent from the sources: the projection of the vector onto the line,
`line * dot(v, line) / line.dot()` (VectorTest.cpp:281-287: (1, 2, 3) onto
(1, -1, 0.5) gives (0.222222, -0.222222, 0.111111)). -/
def projected {size : Nat} {T : Type} [AddCommMonoid T] [Mul T] [Div T]
    (v line : Vector size T) : Vector size T :=
  (line.mulScalar (dotProduct v line)).divScalar line.dot

/-- Modelled from the spec: member `Vector::projectedOntoNormalized(line)` of
Math/Vector.h, absent from the sources (VectorTest.cpp:289-303): when
`line.dot()` equals 1 the projection `line * dot(v, line)`; otherwise the
diagnostic is logged and a vector of NaN is returned, as the math types do
(section 9 of the specification, Complex.h:338-343). The comparison and the
NaN value are parameters. -/
def projectedOntoNormalized {size : Nat} {T : Type} [AddCommMonoid T] [Mul T] [One T]
    (equals : T → T → Bool) (quietNaN : T) (v line : Vector size T) :
    Except (AssertionReturn (Vector size T)) (Vector size T) :=
  if equals line.dot 1 then .ok (line.mulScalar (dotProduct v line))
  else .error
    { message := projectedOntoNormalizedMessage
      value := { _data := fun _ => quietNaN } }

/-- The components of a vector after the first, in order. -/
def rest {size : Nat} {T : Type} (v : Vector (size + 1) T) : List T :=
  List.ofFn fun i : Fin size => v._data i.succ

/-- Modelled from the spec: member `Vector::min()` of Math/Vector.h, absent from
the sources: the least component, starting from the first component and not
from 0 (VectorTest.cpp:259-262). -/
def min {size : Nat} {T : Type} [Min T] (v : Vector (size + 1) T) : T :=
  v.rest.foldl Min.min (v._data 0)

/-- Modelled from the spec: member `Vector::max()` of Math/Vector.h, absent from
the sources: the greatest component, starting from the first component and not
from 0 (VectorTest.cpp:270-273). -/
def max {size : Nat} {T : Type} [Max T] (v : Vector (size + 1) T) : T :=
  v.rest.foldl Max.max (v._data 0)

/-- Modelled from the spec: member `Vector::minAbs()` of Math/Vector.h, absent
from the sources: the least absolute value of the components, the first
component taken absolute as well (VectorTest.cpp:264-268). The absolute value
function `std::abs` of the component type is a parameter; it gives `none`
where the absolute value is not a value of the type (the most negative value
of a signed integer type), the call being undefined there, and the result is
`none` as soon as that happens for a component. -/
def minAbs {size : Nat} {T : Type} [Min T] (abs : T → Option T) (v : Vector (size + 1) T) :
    Option T :=
  v.rest.foldl (fun out x => out.bind fun least => (abs x).map fun a => Min.min least a)
    (abs (v._data 0))

/-- Modelled from the spec: member `Vector::maxAbs()` of Math/Vector.h, absent
from the sources: the greatest absolute value of the components, the first
component taken absolute as well (VectorTest.cpp:275-279). The absolute value
function `std::abs` is a parameter, as for `minAbs()`. -/
def maxAbs {size : Nat} {T : Type} [Max T] (abs : T → Option T) (v : Vector (size + 1) T) :
    Option T :=
  v.rest.foldl (fun out x => out.bind fun greatest => (abs x).map fun a => Max.max greatest a)
    (abs (v._data 0))

/-- Modelled from the spec: `operator<` of Math/Vector.h, absent from the
sources: component-wise comparison giving a `BoolVector`
(VectorTest.cpp:186). -/
def less {size : Nat} {T : Type} [LT T] [DecidableRel fun a b : T => a < b]
    (a b : Vector size T) : BoolVector size :=
  { _data := fun i => decide (a._data i < b._data i) }

/-- Modelled from the spec: `operator<=` of Math/Vector.h (VectorTest.cpp:187). -/
def lessOrEqual {size : Nat} {T : Type} [LE T] [DecidableRel fun a b : T => a ≤ b]
    (a b : Vector size T) : BoolVector size :=
  { _data := fun i => decide (a._data i ≤ b._data i) }

/-- Modelled from the spec: `operator>=` of Math/Vector.h (VectorTest.cpp:188). -/
def greaterOrEqual {size : Nat} {T : Type} [LE T] [DecidableRel fun a b : T => a ≤ b]
    (a b : Vector size T) : BoolVector size :=
  { _data := fun i => decide (a._data i ≥ b._data i) }

/-- Modelled from the spec: `operator>` of Math/Vector.h (VectorTest.cpp:189). -/
def greater {size : Nat} {T : Type} [LT T] [DecidableRel fun a b : T => a < b]
    (a b : Vector size T) : BoolVector size :=
  { _data := fun i => decide (a._data i > b._data i) }

end Vector
end Math

namespace Vk

/-! ## Lemmas on the stored state -/

theorem readArray_length {α : Type} (storage : List α) :
    MeshLayout.readArray storage storage.length = some storage := by
  simp [MeshLayout.readArray]

theorem build_nil (primitive : MeshPrimitive) :
    build primitive [] = MeshLayout.construct primitive := rfl

theorem build_concat (primitive : MeshPrimitive) (calls : List Call) (c : Call) :
    build primitive (calls ++ [c]) = Call.apply (build primitive calls) c := by
  simp [build, List.foldl_append]

theorem wellFormed_construct (primitive : MeshPrimitive) :
    (MeshLayout.construct primitive).WellFormed := by
  simp [MeshLayout.WellFormed, MeshLayout.construct, MeshLayout.vertexBindingDescriptions,
    MeshLayout.vertexAttributeDescriptions, MeshLayout.extensionChain,
    MeshLayout.allocatedState, State.empty]

theorem wellFormed_addBinding (l : MeshLayout) (binding stride : Nat) (h : l.WellFormed) :
    (l.addBinding binding stride).WellFormed := by
  rcases l with ⟨vi, ai, _ | s⟩
  all_goals
    obtain ⟨-, h2, h3, h4⟩ := h
    simp only [MeshLayout.WellFormed, MeshLayout.addBinding, MeshLayout.vertexBindingDescriptions,
      MeshLayout.vertexAttributeDescriptions, MeshLayout.extensionChain,
      MeshLayout.allocatedState, State.empty, Option.getD] at h2 h3 h4 ⊢
    refine ⟨by simp [MeshLayout.readArray], ?_, ?_, ?_⟩
    · cases hp : vi.pVertexAttributeDescriptions <;> simp_all [MeshLayout.readArray]
    · cases hp : vi.pNext <;> simp_all
    · simp_all

theorem wellFormed_addAttribute (l : MeshLayout) (location binding format offset : Nat)
    (h : l.WellFormed) : (l.addAttribute location binding format offset).WellFormed := by
  rcases l with ⟨vi, ai, _ | s⟩
  all_goals
    obtain ⟨h1, -, h3, h4⟩ := h
    simp only [MeshLayout.WellFormed, MeshLayout.addAttribute,
      MeshLayout.vertexBindingDescriptions,
      MeshLayout.vertexAttributeDescriptions, MeshLayout.extensionChain,
      MeshLayout.allocatedState, State.empty, Option.getD] at h1 h3 h4 ⊢
    refine ⟨?_, by simp [MeshLayout.readArray], ?_, ?_⟩
    · cases hp : vi.pVertexBindingDescriptions <;> simp_all [MeshLayout.readArray]
    · cases hp : vi.pNext <;> simp_all
    · simp_all

theorem wellFormed_addInstancedBinding (l : MeshLayout) (binding stride divisor : Nat)
    (h : l.WellFormed) : (l.addInstancedBinding binding stride divisor).WellFormed := by
  rcases l with ⟨vi, ai, _ | s⟩
  · obtain ⟨-, h2, h3, h4⟩ := h
    simp only [MeshLayout.WellFormed,
      MeshLayout.vertexBindingDescriptions,
      MeshLayout.vertexAttributeDescriptions, MeshLayout.extensionChain,
      MeshLayout.allocatedState, State.empty, Option.getD] at h2 h3 h4
    by_cases hd : divisor = 1
    · simp only [MeshLayout.WellFormed, MeshLayout.addInstancedBinding,
        MeshLayout.vertexBindingDescriptions,
        MeshLayout.vertexAttributeDescriptions, MeshLayout.extensionChain,
        MeshLayout.allocatedState, State.empty, Option.getD, hd, ne_eq, not_true_eq_false,
        if_false]
      refine ⟨by simp [MeshLayout.readArray], ?_, ?_, ?_⟩
      · cases hp : vi.pVertexAttributeDescriptions <;> simp_all [MeshLayout.readArray]
      · cases hp : vi.pNext <;> simp_all
      · simp_all
    · simp only [MeshLayout.WellFormed, MeshLayout.addInstancedBinding,
        MeshLayout.vertexBindingDescriptions,
        MeshLayout.vertexAttributeDescriptions, MeshLayout.extensionChain,
        MeshLayout.allocatedState, State.empty, Option.getD, hd, ne_eq, not_false_eq_true,
        if_true]
      refine ⟨by simp [MeshLayout.readArray], ?_, ?_, ?_⟩
      · cases hp : vi.pVertexAttributeDescriptions <;> simp_all [MeshLayout.readArray]
      · cases hp : vi.pNext <;> simp_all [MeshLayout.readArray]
      · simp_all
  · obtain ⟨-, h2, h3, h4⟩ := h
    simp only [MeshLayout.WellFormed,
      MeshLayout.vertexBindingDescriptions,
      MeshLayout.vertexAttributeDescriptions, MeshLayout.extensionChain,
      MeshLayout.allocatedState, State.empty, Option.getD] at h2 h3 h4
    by_cases hd : divisor = 1
    · simp only [MeshLayout.WellFormed, MeshLayout.addInstancedBinding,
        MeshLayout.vertexBindingDescriptions,
        MeshLayout.vertexAttributeDescriptions, MeshLayout.extensionChain,
        MeshLayout.allocatedState, State.empty, Option.getD, hd, ne_eq, not_true_eq_false,
        if_false]
      refine ⟨by simp [MeshLayout.readArray], ?_, ?_, ?_⟩
      · cases hp : vi.pVertexAttributeDescriptions <;> simp_all [MeshLayout.readArray]
      · cases hp : vi.pNext <;> simp_all
      · simp_all
    · rcases s with ⟨bs, ds, as, _ | info⟩
      · simp only [MeshLayout.WellFormed, MeshLayout.addInstancedBinding,
          MeshLayout.vertexBindingDescriptions,
          MeshLayout.vertexAttributeDescriptions, MeshLayout.extensionChain,
          MeshLayout.allocatedState, State.empty, Option.getD, hd, ne_eq, not_false_eq_true,
          if_true]
        refine ⟨by simp [MeshLayout.readArray], ?_, ?_, ?_⟩
        · cases hp : vi.pVertexAttributeDescriptions <;> simp_all [MeshLayout.readArray]
        · cases hp : vi.pNext <;> simp_all [MeshLayout.readArray]
        · simp_all
      · simp only [MeshLayout.WellFormed, MeshLayout.addInstancedBinding,
          MeshLayout.vertexBindingDescriptions,
          MeshLayout.vertexAttributeDescriptions, MeshLayout.extensionChain,
          MeshLayout.allocatedState, State.empty, Option.getD, hd, ne_eq, not_false_eq_true,
          if_true]
        refine ⟨by simp [MeshLayout.readArray], ?_, ?_, ?_⟩
        · cases hp : vi.pVertexAttributeDescriptions <;> simp_all [MeshLayout.readArray]
        · cases hp : vi.pNext <;> simp_all [MeshLayout.readArray]
          by_cases ht : info.sType =
              VK_STRUCTURE_TYPE_PIPELINE_VERTEX_INPUT_DIVISOR_STATE_CREATE_INFO_EXT
          · simp only [ht, if_true] at h3 ⊢
            cases hq : info.pVertexBindingDivisors <;> cases hn : info.pNext <;>
              simp_all [MeshLayout.readArray]
          · simp [ht] at h3
        · simp_all

theorem wellFormed_apply (l : MeshLayout) (c : Call) (h : l.WellFormed) :
    (Call.apply l c).WellFormed := by
  cases c with
  | addBinding binding stride => exact wellFormed_addBinding l binding stride h
  | addInstancedBinding binding stride divisor =>
    exact wellFormed_addInstancedBinding l binding stride divisor h
  | addAttribute location binding format offset =>
    exact wellFormed_addAttribute l location binding format offset h

theorem wellFormed_build (primitive : MeshPrimitive) (calls : List Call) :
    (build primitive calls).WellFormed := by
  induction calls using List.reverseRecOn with
  | nil => exact wellFormed_construct primitive
  | append_singleton calls c ih =>
    rw [build_concat]
    exact wellFormed_apply _ c ih

theorem addInstancedBinding_bindings (l : MeshLayout) (binding stride divisor : Nat) :
    (l.addInstancedBinding binding stride divisor).allocatedState.bindings =
      l.allocatedState.bindings ++
        [{ binding := binding, stride := stride, inputRate := .INSTANCE }] := by
  unfold MeshLayout.addInstancedBinding
  by_cases hd : divisor = 1
  · simp [hd, MeshLayout.allocatedState]
  · cases hi : (l._state.getD State.empty).divisorInfo <;>
      simp [hd, hi, MeshLayout.allocatedState]

theorem addInstancedBinding_attributes (l : MeshLayout) (binding stride divisor : Nat) :
    (l.addInstancedBinding binding stride divisor).allocatedState.attributes =
      l.allocatedState.attributes := by
  unfold MeshLayout.addInstancedBinding
  by_cases hd : divisor = 1
  · simp [hd, MeshLayout.allocatedState]
  · cases hi : (l._state.getD State.empty).divisorInfo <;>
      simp [hd, hi, MeshLayout.allocatedState]

theorem addInstancedBinding_bindingDivisors (l : MeshLayout) (binding stride divisor : Nat) :
    (l.addInstancedBinding binding stride divisor).allocatedState.bindingDivisors =
      l.allocatedState.bindingDivisors ++
        (if divisor ≠ 1 then [{ binding := binding, divisor := divisor }] else []) := by
  unfold MeshLayout.addInstancedBinding
  by_cases hd : divisor = 1
  · simp [hd, MeshLayout.allocatedState]
  · cases hi : (l._state.getD State.empty).divisorInfo <;>
      simp [hd, hi, MeshLayout.allocatedState]

theorem addInstancedBinding_assemblyInfo (l : MeshLayout) (binding stride divisor : Nat) :
    (l.addInstancedBinding binding stride divisor)._assemblyInfo = l._assemblyInfo := by
  unfold MeshLayout.addInstancedBinding
  by_cases hd : divisor = 1
  · simp [hd]
  · cases hi : (l._state.getD State.empty).divisorInfo <;>
      simp [hd, hi, MeshLayout.allocatedState]

theorem apply_bindings (l : MeshLayout) (c : Call) :
    (Call.apply l c).allocatedState.bindings =
      l.allocatedState.bindings ++ c.bindingDescription.toList := by
  cases c with
  | addBinding binding stride =>
    simp [Call.apply, Call.bindingDescription, MeshLayout.addBinding, MeshLayout.allocatedState]
  | addInstancedBinding binding stride divisor =>
    simp [Call.apply, Call.bindingDescription, addInstancedBinding_bindings]
  | addAttribute location binding format offset =>
    simp [Call.apply, Call.bindingDescription, MeshLayout.addAttribute,
      MeshLayout.allocatedState]

theorem apply_attributes (l : MeshLayout) (c : Call) :
    (Call.apply l c).allocatedState.attributes =
      l.allocatedState.attributes ++ c.attributeDescription.toList := by
  cases c with
  | addBinding binding stride =>
    simp [Call.apply, Call.attributeDescription, MeshLayout.addBinding,
      MeshLayout.allocatedState]
  | addInstancedBinding binding stride divisor =>
    simp [Call.apply, Call.attributeDescription, addInstancedBinding_attributes]
  | addAttribute location binding format offset =>
    simp [Call.apply, Call.attributeDescription, MeshLayout.addAttribute,
      MeshLayout.allocatedState]

theorem apply_bindingDivisors (l : MeshLayout) (c : Call) :
    (Call.apply l c).allocatedState.bindingDivisors =
      l.allocatedState.bindingDivisors ++ c.divisorEntry.toList := by
  cases c with
  | addBinding binding stride =>
    simp [Call.apply, Call.divisorEntry, MeshLayout.addBinding, MeshLayout.allocatedState]
  | addInstancedBinding binding stride divisor =>
    by_cases hd : divisor = 1 <;>
      simp [Call.apply, Call.divisorEntry, addInstancedBinding_bindingDivisors, hd]
  | addAttribute location binding format offset =>
    simp [Call.apply, Call.divisorEntry, MeshLayout.addAttribute, MeshLayout.allocatedState]

theorem apply_assemblyInfo (l : MeshLayout) (c : Call) :
    (Call.apply l c)._assemblyInfo = l._assemblyInfo := by
  cases c with
  | addBinding binding stride => rfl
  | addInstancedBinding binding stride divisor =>
    exact addInstancedBinding_assemblyInfo l binding stride divisor
  | addAttribute location binding format offset => rfl

theorem filterMap_concat_toList {α β : Type} (f : α → Option β) (xs : List α) (x : α) :
    (xs ++ [x]).filterMap f = xs.filterMap f ++ (f x).toList := by
  rw [List.filterMap_append]
  cases h : f x <;> simp [List.filterMap, h]

theorem build_bindings (primitive : MeshPrimitive) (calls : List Call) :
    (build primitive calls).allocatedState.bindings =
      calls.filterMap Call.bindingDescription := by
  induction calls using List.reverseRecOn with
  | nil => rfl
  | append_singleton calls c ih =>
    rw [build_concat, apply_bindings, ih, filterMap_concat_toList]

theorem build_attributes (primitive : MeshPrimitive) (calls : List Call) :
    (build primitive calls).allocatedState.attributes =
      calls.filterMap Call.attributeDescription := by
  induction calls using List.reverseRecOn with
  | nil => rfl
  | append_singleton calls c ih =>
    rw [build_concat, apply_attributes, ih, filterMap_concat_toList]

theorem build_bindingDivisors (primitive : MeshPrimitive) (calls : List Call) :
    (build primitive calls).allocatedState.bindingDivisors =
      calls.filterMap Call.divisorEntry := by
  induction calls using List.reverseRecOn with
  | nil => rfl
  | append_singleton calls c ih =>
    rw [build_concat, apply_bindingDivisors, ih, filterMap_concat_toList]

theorem build_assemblyInfo (primitive : MeshPrimitive) (calls : List Call) :
    (build primitive calls)._assemblyInfo = (MeshLayout.construct primitive)._assemblyInfo := by
  induction calls using List.reverseRecOn with
  | nil => rfl
  | append_singleton calls c ih =>
    rw [build_concat, apply_assemblyInfo, ih]

theorem wellFormed_bindingCount (l : MeshLayout) (h : l.WellFormed) :
    l._vertexInfo.vertexBindingDescriptionCount = l.allocatedState.bindings.length := by
  rcases l with ⟨vi, ai, _ | s⟩
  all_goals
    obtain ⟨h1, -, -, -⟩ := h
    simp only [MeshLayout.vertexBindingDescriptions, MeshLayout.allocatedState, State.empty,
      Option.getD, MeshLayout.readArray] at h1 ⊢
    cases hp : vi.pVertexBindingDescriptions <;> simp_all
  omega

theorem wellFormed_attributeCount (l : MeshLayout) (h : l.WellFormed) :
    l._vertexInfo.vertexAttributeDescriptionCount = l.allocatedState.attributes.length := by
  rcases l with ⟨vi, ai, _ | s⟩
  all_goals
    obtain ⟨-, h2, -, -⟩ := h
    simp only [MeshLayout.vertexAttributeDescriptions, MeshLayout.allocatedState, State.empty,
      Option.getD, MeshLayout.readArray] at h2 ⊢
    cases hp : vi.pVertexAttributeDescriptions <;> simp_all
  omega

theorem divisorEntry_filterMap_ne_nil (calls : List Call) :
    calls.filterMap Call.divisorEntry ≠ [] ↔
      ∃ binding stride divisor,
        Call.addInstancedBinding binding stride divisor ∈ calls ∧ divisor ≠ 1 := by
  constructor
  · intro h
    obtain ⟨e, he⟩ := List.exists_mem_of_ne_nil _ h
    obtain ⟨c, hc, hce⟩ := List.mem_filterMap.mp he
    cases c with
    | addBinding binding stride => simp [Call.divisorEntry] at hce
    | addInstancedBinding binding stride divisor =>
      by_cases hd : divisor = 1
      · simp [Call.divisorEntry, hd] at hce
      · exact ⟨binding, stride, divisor, hc, hd⟩
    | addAttribute location binding format offset => simp [Call.divisorEntry] at hce
  · rintro ⟨binding, stride, divisor, hc, hd⟩ h
    have hmem : ({ binding := binding, divisor := divisor } :
        VkVertexInputBindingDivisorDescriptionEXT) ∈ calls.filterMap Call.divisorEntry :=
      List.mem_filterMap.mpr ⟨_, hc, by simp [Call.divisorEntry, hd]⟩
    rw [h] at hmem
    exact List.not_mem_nil _ hmem

theorem pNext_null_of_chain_nil (l : MeshLayout) (h : l.extensionChain = some []) :
    l._vertexInfo.pNext = Ptr.null := by
  unfold MeshLayout.extensionChain at h
  split at h
  · assumption
  · exfalso
    split at h
    · simp at h
    · split at h
      · simp at h
      · split at h
        · split at h
          · simp at h
          · simp at h
        · simp at h
  · simp at h

theorem bindingCount_of_own_list (l : MeshLayout)
    (h : l.vertexBindingDescriptions = some l.allocatedState.bindings) :
    l._vertexInfo.vertexBindingDescriptionCount = l.allocatedState.bindings.length := by
  rcases l with ⟨vi, ai, _ | s⟩
  all_goals
    simp only [MeshLayout.vertexBindingDescriptions, MeshLayout.allocatedState, State.empty,
      Option.getD, MeshLayout.readArray] at h ⊢
    cases hp : vi.pVertexBindingDescriptions <;> simp_all
  omega

theorem attributeCount_of_own_list (l : MeshLayout)
    (h : l.vertexAttributeDescriptions = some l.allocatedState.attributes) :
    l._vertexInfo.vertexAttributeDescriptionCount = l.allocatedState.attributes.length := by
  rcases l with ⟨vi, ai, _ | s⟩
  all_goals
    simp only [MeshLayout.vertexAttributeDescriptions, MeshLayout.allocatedState, State.empty,
      Option.getD, MeshLayout.readArray] at h ⊢
    cases hp : vi.pVertexAttributeDescriptions <;> simp_all
  omega

theorem addBinding_reads_own_list (l : MeshLayout) (binding stride : Nat) :
    (l.addBinding binding stride).vertexBindingDescriptions =
      some (l.allocatedState.bindings ++
        [{ binding := binding, stride := stride, inputRate := VkVertexInputRate.VERTEX }]) := by
  simp [MeshLayout.addBinding, MeshLayout.vertexBindingDescriptions, MeshLayout.readArray]

theorem addInstancedBinding_reads_own_list (l : MeshLayout) (binding stride divisor : Nat) :
    (l.addInstancedBinding binding stride divisor).vertexBindingDescriptions =
      some (l.allocatedState.bindings ++
        [{ binding := binding, stride := stride, inputRate := VkVertexInputRate.INSTANCE }]) := by
  unfold MeshLayout.addInstancedBinding
  by_cases hd : divisor = 1
  · simp [hd, MeshLayout.vertexBindingDescriptions, MeshLayout.readArray]
  · cases hi : (l._state.getD State.empty).divisorInfo <;>
      simp [hd, hi, MeshLayout.allocatedState, MeshLayout.vertexBindingDescriptions,
        MeshLayout.readArray]

theorem addAttribute_reads_own_list (l : MeshLayout) (location binding format offset : Nat) :
    (l.addAttribute location binding format offset).vertexAttributeDescriptions =
      some (l.allocatedState.attributes ++
        [{ location := location, binding := binding, format := format, offset := offset }]) := by
  simp [MeshLayout.addAttribute, MeshLayout.vertexAttributeDescriptions, MeshLayout.readArray]

/-! ## The extension chain -/

/-- C1: for every builder made from `construct(primitive)` by a sequence of
calls in which at least one `addInstancedBinding` call has a divisor other
than 1, the extension chain of the vertex-input aggregate is exactly one
divisor block, and the entries of that block are the (binding, divisor) pairs
of the `addInstancedBinding` calls with divisor other than 1, one per such
call, in call order (divisor 0 included). -/
theorem divisor_block_once_in_call_order (primitive : MeshPrimitive) (calls : List Call)
    (h : ∃ binding stride divisor,
      Call.addInstancedBinding binding stride divisor ∈ calls ∧ divisor ≠ 1) :
    (build primitive calls).extensionChain =
        some [MeshLayout.ExtensionBlock.divisorState (calls.filterMap Call.divisorEntry)] ∧
      (build primitive calls)._vertexInfo.pNext = Ptr.divisorInfo ∧
      (build primitive calls).divisorEntries = calls.filterMap Call.divisorEntry := by
  have hne := (divisorEntry_filterMap_ne_nil calls).mpr h
  have hwf := wellFormed_build primitive calls
  have hchain := hwf.2.2.1
  rw [build_bindingDivisors, if_neg hne] at hchain
  refine ⟨hchain, ?_, build_bindingDivisors primitive calls⟩
  unfold MeshLayout.extensionChain at hchain
  cases hp : (build primitive calls)._vertexInfo.pNext <;> simp_all

/-- Scenario of C1: `builder(Points).addInstancedBinding(0, 16, 3)
.addInstancedBinding(1, 8, 0)` has one divisor block with the entries
(0, 3) and (1, 0), in that order. -/
theorem divisor_block_once_in_call_order_witness :
    (∃ binding stride divisor,
      Call.addInstancedBinding binding stride divisor ∈
        [Call.addInstancedBinding 0 16 3, Call.addInstancedBinding 1 8 0] ∧ divisor ≠ 1) ∧
    (build MeshPrimitive.Points
      [Call.addInstancedBinding 0 16 3, Call.addInstancedBinding 1 8 0]).extensionChain =
        some [MeshLayout.ExtensionBlock.divisorState
          [{ binding := 0, divisor := 3 }, { binding := 1, divisor := 0 }]] :=
  ⟨⟨0, 16, 3, by simp, by decide⟩,
    (divisor_block_once_in_call_order MeshPrimitive.Points
      [Call.addInstancedBinding 0 16 3, Call.addInstancedBinding 1 8 0]
      ⟨0, 16, 3, by simp, by decide⟩).1⟩

/-- C2: for every builder made from `construct(primitive)` by a sequence of
calls in which every `addInstancedBinding` call has divisor 1, the extension
chain of the vertex-input aggregate is empty (its `pNext` is null), no divisor
entry is stored and no divisor block exists. -/
theorem default_divisor_leaves_chain_empty (primitive : MeshPrimitive) (calls : List Call)
    (h : ∀ binding stride divisor,
      Call.addInstancedBinding binding stride divisor ∈ calls → divisor = 1) :
    (build primitive calls).extensionChain = some [] ∧
      (build primitive calls)._vertexInfo.pNext = Ptr.null ∧
      (build primitive calls).divisorEntries = [] ∧
      (build primitive calls).allocatedState.divisorInfo = none := by
  have hnil : calls.filterMap Call.divisorEntry = [] := by
    by_contra hne
    obtain ⟨binding, stride, divisor, hc, hd⟩ := (divisorEntry_filterMap_ne_nil calls).mp hne
    exact hd (h binding stride divisor hc)
  have hwf := wellFormed_build primitive calls
  have hchain := hwf.2.2.1
  have hdiv := build_bindingDivisors primitive calls
  rw [hnil] at hdiv
  rw [hdiv, if_pos rfl] at hchain
  refine ⟨hchain, ?_, hdiv, hwf.2.2.2.mpr hdiv⟩
  exact pNext_null_of_chain_nil _ hchain

/-- Scenario of C2: `builder(Points).addInstancedBinding(0, 16, 1)` creates no
divisor block; the call with the default argument is this call. -/
theorem default_divisor_leaves_chain_empty_witness :
    (∀ binding stride divisor,
      Call.addInstancedBinding binding stride divisor ∈
        [Call.addInstancedBinding 0 16 MeshLayout.addInstancedBindingDefaultDivisor] →
      divisor = 1) ∧
    (build MeshPrimitive.Points
      [Call.addInstancedBinding 0 16 MeshLayout.addInstancedBindingDefaultDivisor]).extensionChain
        = some [] :=
  ⟨by simp [MeshLayout.addInstancedBindingDefaultDivisor],
    (default_divisor_leaves_chain_empty MeshPrimitive.Points
      [Call.addInstancedBinding 0 16 MeshLayout.addInstancedBindingDefaultDivisor]
      (by simp [MeshLayout.addInstancedBindingDefaultDivisor])).1⟩

/-! ## Appending descriptors -/

/-- Counterexample to C3: a builder constructed from existing data whose
vertex-input aggregate refers to two binding descriptors of the caller has a
binding count of 2; after `addBinding(0, 32)` the count is 1, not 3, and the
aggregate refers to the list of the builder, which holds the new descriptor
alone: the two earlier descriptors are gone from the aggregate. -/
theorem addBinding_drops_descriptors_of_the_caller :
    (MeshLayout.constructFrom (callerVertexInfo 2 0)
      callerAssemblyInfo)._vertexInfo.vertexBindingDescriptionCount = 2 ∧
    ((MeshLayout.constructFrom (callerVertexInfo 2 0)
      callerAssemblyInfo).addBinding 0 32)._vertexInfo.vertexBindingDescriptionCount = 1 ∧
    ((MeshLayout.constructFrom (callerVertexInfo 2 0)
      callerAssemblyInfo).addBinding 0 32)._vertexInfo.pVertexBindingDescriptions =
      Ptr.bindings ∧
    ((MeshLayout.constructFrom (callerVertexInfo 2 0)
      callerAssemblyInfo).addBinding 0 32).vertexBindingDescriptions =
      some [{ binding := 0, stride := 32, inputRate := VkVertexInputRate.VERTEX }] := by
  decide

/-- C3 as amended: in every builder state whose vertex-input aggregate lists
exactly the binding descriptors stored in the builder, and for all binding and
stride values, `addBinding(binding, stride)` appends exactly one descriptor
{binding, stride, inputRate = PerVertex} at the end of the binding list of the
aggregate: the earlier descriptors stay, in order, and the binding count grows
by one. Every state made from `construct(primitive)` by a sequence of calls is
such a state, its binding list being the descriptors of the binding calls in
call order. In any state at all the aggregate lists, after the call, the
descriptors stored in the builder followed by the new one. -/
theorem addBinding_appends_per_vertex (l : MeshLayout) (binding stride : Nat) :
    (l.vertexBindingDescriptions = some l.allocatedState.bindings →
      ∃ earlier : List VkVertexInputBindingDescription,
        l.vertexBindingDescriptions = some earlier ∧
        l._vertexInfo.vertexBindingDescriptionCount = earlier.length ∧
        (l.addBinding binding stride).vertexBindingDescriptions =
          some (earlier ++
            [{ binding := binding, stride := stride, inputRate := VkVertexInputRate.VERTEX }]) ∧
        (l.addBinding binding stride)._vertexInfo.vertexBindingDescriptionCount =
          l._vertexInfo.vertexBindingDescriptionCount + 1) ∧
    (∀ (primitive : MeshPrimitive) (calls : List Call),
      (build primitive calls).vertexBindingDescriptions =
        some (build primitive calls).allocatedState.bindings ∧
      (build primitive calls).allocatedState.bindings =
        calls.filterMap Call.bindingDescription) ∧
    (l.addBinding binding stride).vertexBindingDescriptions =
      some (l.allocatedState.bindings ++
        [{ binding := binding, stride := stride, inputRate := VkVertexInputRate.VERTEX }]) ∧
    (l.addBinding binding stride)._vertexInfo.vertexBindingDescriptionCount =
      l.allocatedState.bindings.length + 1 := by
  refine ⟨?_, ?_, addBinding_reads_own_list l binding stride, ?_⟩
  · intro h
    refine ⟨l.allocatedState.bindings, h, bindingCount_of_own_list l h,
      addBinding_reads_own_list l binding stride, ?_⟩
    rw [bindingCount_of_own_list l h]
    simp [MeshLayout.addBinding]
  · intro primitive calls
    exact ⟨(wellFormed_build primitive calls).1, build_bindings primitive calls⟩
  · simp [MeshLayout.addBinding]

/-- Scenario of C3: `builder(Triangles).addBinding(0, 32)` has one binding
(index 0, stride 32, PerVertex). -/
theorem addBinding_appends_per_vertex_witness :
    (MeshLayout.construct MeshPrimitive.Triangles).vertexBindingDescriptions =
      some (MeshLayout.construct MeshPrimitive.Triangles).allocatedState.bindings ∧
    ((MeshLayout.construct MeshPrimitive.Triangles).addBinding 0 32).vertexBindingDescriptions =
      some [{ binding := 0, stride := 32, inputRate := VkVertexInputRate.VERTEX }] ∧
    ((MeshLayout.construct
      MeshPrimitive.Triangles).addBinding 0 32)._vertexInfo.vertexBindingDescriptionCount = 1 := by
  have hown : (MeshLayout.construct MeshPrimitive.Triangles).vertexBindingDescriptions =
      some (MeshLayout.construct MeshPrimitive.Triangles).allocatedState.bindings := rfl
  obtain ⟨earlier, h1, -, h3, h4⟩ :=
    (addBinding_appends_per_vertex (MeshLayout.construct MeshPrimitive.Triangles) 0 32).1 hown
  have he : earlier = [] := by
    have : (MeshLayout.construct MeshPrimitive.Triangles).vertexBindingDescriptions =
        some [] := rfl
    rw [this] at h1
    exact (Option.some.inj h1).symm
  subst he
  exact ⟨hown, h3, h4⟩

/-- Counterexample to C4: a builder constructed from existing data whose
vertex-input aggregate refers to two binding descriptors of the caller has a
binding count of 2; after `addInstancedBinding(1, 16, 1)` the count is 1, not
3, and the aggregate lists the new PerInstance descriptor alone: the earlier
descriptors did not stay. -/
theorem addInstancedBinding_drops_descriptors_of_the_caller :
    (MeshLayout.constructFrom (callerVertexInfo 2 0)
      callerAssemblyInfo)._vertexInfo.vertexBindingDescriptionCount = 2 ∧
    ((MeshLayout.constructFrom (callerVertexInfo 2 0)
      callerAssemblyInfo).addInstancedBinding 1 16 1)._vertexInfo.vertexBindingDescriptionCount =
      1 ∧
    ((MeshLayout.constructFrom (callerVertexInfo 2 0)
      callerAssemblyInfo).addInstancedBinding 1 16 1)._vertexInfo.pVertexBindingDescriptions =
      Ptr.bindings ∧
    ((MeshLayout.constructFrom (callerVertexInfo 2 0)
      callerAssemblyInfo).addInstancedBinding 1 16 1).vertexBindingDescriptions =
      some [{ binding := 1, stride := 16, inputRate := VkVertexInputRate.INSTANCE }] := by
  decide

/-- C4 as amended: in every builder state whose vertex-input aggregate lists
exactly the binding descriptors stored in the builder (every state made from
`construct(primitive)` by a sequence of calls is one), and for every divisor
value (0, 1 and larger alike), `addInstancedBinding(binding, stride, divisor)`
appends exactly one descriptor {binding, stride, inputRate = PerInstance} at
the end of the binding list, leaving the earlier descriptors unchanged. In any
state at all the aggregate lists, after the call, the descriptors stored in
the builder followed by the new one, and the divisor only decides whether a
divisor entry (binding, divisor) is stored in addition: one is appended when
the divisor is not 1, none otherwise. -/
theorem addInstancedBinding_appends_per_instance (l : MeshLayout)
    (binding stride divisor : Nat) :
    (l.vertexBindingDescriptions = some l.allocatedState.bindings →
      ∃ earlier : List VkVertexInputBindingDescription,
        l.vertexBindingDescriptions = some earlier ∧
        (l.addInstancedBinding binding stride divisor).vertexBindingDescriptions =
          some (earlier ++
            [{ binding := binding, stride := stride, inputRate := VkVertexInputRate.INSTANCE }]) ∧
        (l.addInstancedBinding binding stride divisor)._vertexInfo.vertexBindingDescriptionCount =
          l._vertexInfo.vertexBindingDescriptionCount + 1) ∧
    (∀ (primitive : MeshPrimitive) (calls : List Call),
      (build primitive calls).vertexBindingDescriptions =
        some (build primitive calls).allocatedState.bindings) ∧
    (l.addInstancedBinding binding stride divisor).vertexBindingDescriptions =
      some (l.allocatedState.bindings ++
        [{ binding := binding, stride := stride, inputRate := VkVertexInputRate.INSTANCE }]) ∧
    (l.addInstancedBinding binding stride divisor).divisorEntries =
      l.divisorEntries ++
        (if divisor ≠ 1 then [{ binding := binding, divisor := divisor }] else []) := by
  have hread := addInstancedBinding_reads_own_list l binding stride divisor
  refine ⟨?_, fun primitive calls => (wellFormed_build primitive calls).1, hread,
    addInstancedBinding_bindingDivisors l binding stride divisor⟩
  intro h
  refine ⟨l.allocatedState.bindings, h, hread, ?_⟩
  have hown : (l.addInstancedBinding binding stride divisor).vertexBindingDescriptions =
      some (l.addInstancedBinding binding stride divisor).allocatedState.bindings := by
    rw [hread, addInstancedBinding_bindings]
  rw [bindingCount_of_own_list _ hown, bindingCount_of_own_list l h,
    addInstancedBinding_bindings]
  simp

/-- Instance of C4 with divisor 0 on a builder that already holds a binding:
the earlier descriptor stays first, the PerInstance one follows. -/
theorem addInstancedBinding_appends_per_instance_witness :
    (build MeshPrimitive.Points [Call.addBinding 0 32]).vertexBindingDescriptions =
      some (build MeshPrimitive.Points [Call.addBinding 0 32]).allocatedState.bindings ∧
    ((build MeshPrimitive.Points
      [Call.addBinding 0 32]).addInstancedBinding 1 16 0).vertexBindingDescriptions =
      some [{ binding := 0, stride := 32, inputRate := VkVertexInputRate.VERTEX },
            { binding := 1, stride := 16, inputRate := VkVertexInputRate.INSTANCE }] := by
  have hown := (wellFormed_build MeshPrimitive.Points [Call.addBinding 0 32]).1
  obtain ⟨earlier, h1, h2, -⟩ :=
    (addInstancedBinding_appends_per_instance (build MeshPrimitive.Points [Call.addBinding 0 32])
      1 16 0).1 hown
  have he : earlier =
      [{ binding := 0, stride := 32, inputRate := VkVertexInputRate.VERTEX }] := by
    have : (build MeshPrimitive.Points [Call.addBinding 0 32]).vertexBindingDescriptions =
        some [{ binding := 0, stride := 32, inputRate := VkVertexInputRate.VERTEX }] := by
      decide
    rw [this] at h1
    exact (Option.some.inj h1).symm
  subst he
  exact ⟨hown, h2⟩

/-- Counterexample to C5: a builder constructed from existing data whose
vertex-input aggregate refers to three attribute descriptors of the caller has
an attribute count of 3; after `addAttribute(0, 0, 106, 0)` the count is 1,
not 4, and the aggregate lists the new descriptor alone. -/
theorem addAttribute_drops_descriptors_of_the_caller :
    (MeshLayout.constructFrom (callerVertexInfo 0 3)
      callerAssemblyInfo)._vertexInfo.vertexAttributeDescriptionCount = 3 ∧
    ((MeshLayout.constructFrom (callerVertexInfo 0 3)
      callerAssemblyInfo).addAttribute 0 0 106 0)._vertexInfo.vertexAttributeDescriptionCount =
      1 ∧
    ((MeshLayout.constructFrom (callerVertexInfo 0 3)
      callerAssemblyInfo).addAttribute 0 0 106 0)._vertexInfo.pVertexAttributeDescriptions =
      Ptr.attributes ∧
    ((MeshLayout.constructFrom (callerVertexInfo 0 3)
      callerAssemblyInfo).addAttribute 0 0 106 0).vertexAttributeDescriptions =
      some [{ location := 0, binding := 0, format := 106, offset := 0 }] := by
  decide

/-- C5 as amended: in every builder state whose vertex-input aggregate lists
exactly the attribute descriptors stored in the builder, and for all argument
values, `addAttribute(location, binding, format, offset)` appends exactly one
descriptor {location, binding, format, offset} at the end of the attribute
list of the aggregate, with no condition on the bindings present; the earlier
attributes stay, in order. Every state made from `construct(primitive)` by a
sequence of calls is such a state, and its attribute list is the descriptors
of the `addAttribute` calls in call order. In any state at all the aggregate
lists, after the call, the attributes stored in the builder followed by the
new one. -/
theorem addAttribute_appends (l : MeshLayout) (location binding format offset : Nat) :
    (l.vertexAttributeDescriptions = some l.allocatedState.attributes →
      ∃ earlier : List VkVertexInputAttributeDescription,
        l.vertexAttributeDescriptions = some earlier ∧
        (l.addAttribute location binding format offset).vertexAttributeDescriptions =
          some (earlier ++
            [{ location := location, binding := binding, format := format,
               offset := offset }]) ∧
        (l.addAttribute
          location binding format offset)._vertexInfo.vertexAttributeDescriptionCount =
          l._vertexInfo.vertexAttributeDescriptionCount + 1) ∧
    (∀ (primitive : MeshPrimitive) (calls : List Call),
      (build primitive calls).vertexAttributeDescriptions =
        some (build primitive calls).allocatedState.attributes ∧
      (build primitive calls).allocatedState.attributes =
        calls.filterMap Call.attributeDescription) ∧
    (l.addAttribute location binding format offset).vertexAttributeDescriptions =
      some (l.allocatedState.attributes ++
        [{ location := location, binding := binding, format := format, offset := offset }]) ∧
    (l.WellFormed →
      (l.addAttribute location binding format offset).vertexBindingDescriptions =
        l.vertexBindingDescriptions) := by
  have hread := addAttribute_reads_own_list l location binding format offset
  refine ⟨?_, ?_, hread, ?_⟩
  · intro h
    refine ⟨l.allocatedState.attributes, h, hread, ?_⟩
    rw [attributeCount_of_own_list l h]
    simp [MeshLayout.addAttribute]
  · intro primitive calls
    exact ⟨(wellFormed_build primitive calls).2.1, build_attributes primitive calls⟩
  · intro h
    have hwf := wellFormed_addAttribute l location binding format offset h
    rw [hwf.1, h.1]
    simp [MeshLayout.addAttribute, MeshLayout.allocatedState]

/-- Scenario of C5: on `builder(Triangles).addBinding(0, 32)
.addAttribute(0, 0, Vec3Format, 0)` the call `addAttribute(1, 0, Vec2Format, 12)`
yields two attributes, (location 0, offset 0) then (location 1, offset 12).
The formats are passed as the numbers 106 and 103. -/
theorem addAttribute_appends_witness :
    (build MeshPrimitive.Triangles
      [Call.addBinding 0 32, Call.addAttribute 0 0 106 0]).vertexAttributeDescriptions =
      some (build MeshPrimitive.Triangles
        [Call.addBinding 0 32, Call.addAttribute 0 0 106 0]).allocatedState.attributes ∧
    ((build MeshPrimitive.Triangles
      [Call.addBinding 0 32, Call.addAttribute 0 0 106 0]).addAttribute
        1 0 103 12).vertexAttributeDescriptions =
      some [{ location := 0, binding := 0, format := 106, offset := 0 },
            { location := 1, binding := 0, format := 103, offset := 12 }] := by
  have hown := (wellFormed_build MeshPrimitive.Triangles
    [Call.addBinding 0 32, Call.addAttribute 0 0 106 0]).2.1
  obtain ⟨earlier, h1, h2, -⟩ :=
    (addAttribute_appends
      (build MeshPrimitive.Triangles [Call.addBinding 0 32, Call.addAttribute 0 0 106 0])
      1 0 103 12).1 hown
  have he : earlier = [{ location := 0, binding := 0, format := 106, offset := 0 }] := by
    have : (build MeshPrimitive.Triangles
        [Call.addBinding 0 32, Call.addAttribute 0 0 106 0]).vertexAttributeDescriptions =
        some [{ location := 0, binding := 0, format := 106, offset := 0 }] := by
      decide
    rw [this] at h1
    exact (Option.some.inj h1).symm
  subst he
  exact ⟨hown, h2⟩

/-! ## Construction -/

/-- C6: for every primitive `p`, `construct(p)` gives a builder whose
input-assembly aggregate has topology `p` (and no other primitive has that
topology value) and restart disabled, and whose vertex-input aggregate has no
binding, no attribute and an empty extension chain: apart from the two
structure-type tags and the topology every field is zero (null for pointers),
and no state is allocated. -/
theorem construct_zero_filled (primitive : MeshPrimitive) :
    (MeshLayout.construct primitive).vkPipelineInputAssemblyStateCreateInfo =
      { sType := VK_STRUCTURE_TYPE_PIPELINE_INPUT_ASSEMBLY_STATE_CREATE_INFO
        pNext := Ptr.null
        flags := 0
        topology := primitive.toVkPrimitiveTopology
        primitiveRestartEnable := false } ∧
    (∀ q : MeshPrimitive,
      q.toVkPrimitiveTopology =
        (MeshLayout.construct primitive).vkPipelineInputAssemblyStateCreateInfo.topology →
      q = primitive) ∧
    (MeshLayout.construct primitive).vkPipelineVertexInputStateCreateInfo =
      { sType := VK_STRUCTURE_TYPE_PIPELINE_VERTEX_INPUT_STATE_CREATE_INFO
        pNext := Ptr.null
        flags := 0
        vertexBindingDescriptionCount := 0
        pVertexBindingDescriptions := Ptr.null
        vertexAttributeDescriptionCount := 0
        pVertexAttributeDescriptions := Ptr.null } ∧
    (MeshLayout.construct primitive).vertexBindingDescriptions = some [] ∧
    (MeshLayout.construct primitive).vertexAttributeDescriptions = some [] ∧
    (MeshLayout.construct primitive).extensionChain = some [] ∧
    (MeshLayout.construct primitive)._state = none := by
  refine ⟨rfl, ?_, rfl, rfl, rfl, rfl, rfl⟩
  intro q hq
  cases q <;> cases primitive <;> first | rfl | (exact absurd hq (by decide))

/-! ## Permissiveness -/

/-- C7: the three mutators are total functions of the builder and their
arguments, and from `construct(primitive)` every call of every sequence is
accepted, whatever its arguments (a binding index used before, an attribute
whose binding was never added, an offset not below the stride): the resulting
builder is well formed, its binding list holds one descriptor per binding
call and its attribute list one descriptor per `addAttribute` call, in call
order, so the lists together have as many descriptors as there were calls;
the input-assembly aggregate is the one `construct` made. -/
theorem mutators_accept_every_call (primitive : MeshPrimitive) (calls : List Call) :
    (build primitive calls).WellFormed ∧
    (build primitive calls).vertexBindingDescriptions =
      some (calls.filterMap Call.bindingDescription) ∧
    (build primitive calls).vertexAttributeDescriptions =
      some (calls.filterMap Call.attributeDescription) ∧
    (calls.filterMap Call.bindingDescription).length +
      (calls.filterMap Call.attributeDescription).length = calls.length ∧
    (build primitive calls).vkPipelineInputAssemblyStateCreateInfo =
      (MeshLayout.construct primitive).vkPipelineInputAssemblyStateCreateInfo := by
  have hwf := wellFormed_build primitive calls
  refine ⟨hwf, ?_, ?_, ?_, build_assemblyInfo primitive calls⟩
  · rw [hwf.1, build_bindings]
  · rw [hwf.2.1, build_attributes]
  · induction calls with
    | nil => rfl
    | cons c calls ih =>
      have ih2 := ih (wellFormed_build primitive calls)
      cases c <;>
        simp [List.filterMap_cons, Call.bindingDescription, Call.attributeDescription] <;>
        omega

/-! ## Binding indices -/

/-- Counterexample to C8: `builder(Points).addBinding(0, 16).addBinding(0, 32)`
holds two binding descriptors with binding index 0. -/
theorem binding_indices_not_unique :
    (build MeshPrimitive.Points [Call.addBinding 0 16, Call.addBinding 0 32]).bindingIndices
        = [0, 0] ∧
    ¬ (build MeshPrimitive.Points
        [Call.addBinding 0 16, Call.addBinding 0 32]).bindingIndices.Nodup := by
  decide

/-- C8 as amended: in every builder state reachable from
`construct(primitive)`, the binding descriptors carry exactly the binding
indices passed to the `addBinding` / `addInstancedBinding` calls, in call
order; so no two descriptors carry the same index if and only if the calls
were given pairwise different indices. -/
theorem binding_indices_are_those_passed (primitive : MeshPrimitive) (calls : List Call) :
    (build primitive calls).bindingIndices = calls.filterMap Call.bindingIndex ∧
    ((build primitive calls).bindingIndices.Nodup ↔
      (calls.filterMap Call.bindingIndex).Nodup) := by
  have hidx : (build primitive calls).bindingIndices = calls.filterMap Call.bindingIndex := by
    unfold MeshLayout.bindingIndices
    rw [(wellFormed_build primitive calls).1, build_bindings]
    simp only [Option.getD_some]
    induction calls with
    | nil => rfl
    | cons c calls ih =>
      cases c <;>
        simp [List.filterMap_cons, Call.bindingDescription, Call.bindingIndex, ih]
  exact ⟨hidx, by rw [hidx]⟩

/-! ## Construction from existing aggregates -/

/-- C9: for every pair of raw aggregates, the builder constructed from them
returns through its two accessors aggregates equal to the inputs; the pointer
fields (binding list, attribute list, both extension chains) are the very
addresses given, and the builder allocates no storage of its own. -/
theorem constructFrom_roundtrip (vertexInfo : VkPipelineVertexInputStateCreateInfo)
    (assemblyInfo : VkPipelineInputAssemblyStateCreateInfo) :
    (MeshLayout.constructFrom vertexInfo assemblyInfo).vkPipelineVertexInputStateCreateInfo =
      vertexInfo ∧
    (MeshLayout.constructFrom vertexInfo assemblyInfo).vkPipelineInputAssemblyStateCreateInfo =
      assemblyInfo ∧
    (MeshLayout.constructFrom
      vertexInfo assemblyInfo).vkPipelineVertexInputStateCreateInfo.pVertexBindingDescriptions =
      vertexInfo.pVertexBindingDescriptions ∧
    (MeshLayout.constructFrom
      vertexInfo assemblyInfo).vkPipelineVertexInputStateCreateInfo.pVertexAttributeDescriptions =
      vertexInfo.pVertexAttributeDescriptions ∧
    (MeshLayout.constructFrom vertexInfo assemblyInfo).vkPipelineVertexInputStateCreateInfo.pNext =
      vertexInfo.pNext ∧
    (MeshLayout.constructFrom vertexInfo assemblyInfo).vkPipelineInputAssemblyStateCreateInfo.pNext =
      assemblyInfo.pNext ∧
    (MeshLayout.constructFrom vertexInfo assemblyInfo)._state = none :=
  ⟨rfl, rfl, rfl, rfl, rfl, rfl, rfl⟩

/-! ## When the divisor block is present -/

/-- Counterexample to C10: on `builder(Points).addInstancedBinding(0, 16, 1)`
the divisor 1 is different than 0, yet no extension chain holds a divisor
block: the chain of the vertex-input aggregate is empty and `pNext` of the
input-assembly aggregate is null. -/
theorem divisor_one_links_no_block :
    (Call.addInstancedBinding 0 16 1 ∈ [Call.addInstancedBinding 0 16 1] ∧ 1 ≠ 0) ∧
    (build MeshPrimitive.Points
      [Call.addInstancedBinding 0 16 1]).containsDivisorBlock = false ∧
    (build MeshPrimitive.Points [Call.addInstancedBinding 0 16 1]).extensionChain = some [] ∧
    (build MeshPrimitive.Points
      [Call.addInstancedBinding 0 16 1]).vkPipelineInputAssemblyStateCreateInfo.pNext =
        Ptr.null := by
  decide

/-- C10 as amended: for every builder made from `construct(primitive)` by a
sequence of calls, the extension chain of the vertex-input aggregate holds the
divisor block if and only if `addInstancedBinding` was called with a divisor
different than 1 (so after divisor 0 it is there and after divisor 1 alone it
is not); `pNext` of the input-assembly aggregate stays null. -/
theorem divisor_block_iff_divisor_not_one (primitive : MeshPrimitive) (calls : List Call) :
    ((build primitive calls).containsDivisorBlock = true ↔
      ∃ binding stride divisor,
        Call.addInstancedBinding binding stride divisor ∈ calls ∧ divisor ≠ 1) ∧
    (build primitive calls).vkPipelineInputAssemblyStateCreateInfo.pNext = Ptr.null := by
  refine ⟨?_, ?_⟩
  · rw [← divisorEntry_filterMap_ne_nil]
    have hchain := (wellFormed_build primitive calls).2.2.1
    rw [build_bindingDivisors] at hchain
    unfold MeshLayout.containsDivisorBlock
    rw [hchain]
    by_cases hnil : calls.filterMap Call.divisorEntry = [] <;> simp [hnil]
  · show (build primitive calls)._assemblyInfo.pNext = Ptr.null
    rw [build_assemblyInfo]
    rfl

/-! ## Moving the builder -/

/-- C12: for every builder state and each of the two accessors, a call leaves
the builder as it was, and a second call, with only accessor calls (of either
accessor, any number) in between, returns the same structure as the first. -/
theorem accessors_idempotent_without_effect (l : MeshLayout) (a : Access)
    (reads : List Access) :
    (l.access a).2 = l ∧
    ((l.access a).2.access a).1 = (l.access a).1 ∧
    l.accessAll reads = l ∧
    (((l.access a).2.accessAll reads).access a).1 = (l.access a).1 := by
  have hstep : ∀ (b : MeshLayout) (x : Access), (b.access x).2 = b := by
    intro b x
    cases x <;> rfl
  have hall : ∀ (rs : List Access) (b : MeshLayout), b.accessAll rs = b := by
    intro rs
    induction rs with
    | nil => intro b; rfl
    | cons r rs ih =>
      intro b
      show MeshLayout.accessAll (b.access r).2 rs = b
      rw [hstep, ih]
  refine ⟨hstep l a, ?_, hall reads l, ?_⟩
  · rw [hstep]
  · rw [hstep, hall]

/-! ## Enum translation -/

theorem hasVkPrimitiveTopology_generic (isSpecific : Nat → Bool) (p : Nat)
    (hs : isSpecific p = false) :
    hasVkPrimitiveTopology isSpecific p = hasVkPrimitiveTopology (fun _ => false) p := by
  unfold hasVkPrimitiveTopology
  rw [hs]

theorem vkPrimitiveTopology_generic (isSpecific : Nat → Bool) (unwrap : Nat → Nat) (p : Nat)
    (hs : isSpecific p = false) :
    vkPrimitiveTopology isSpecific unwrap p =
      vkPrimitiveTopology (fun _ => false) (fun x => x) p := by
  unfold vkPrimitiveTopology
  rw [hs]
  simp

theorem except_exists_ok_iff {ε α : Type} (e : Except ε α) :
    (∃ a, e = Except.ok a) ↔ e.isOk = true := by
  cases e with
  | error x => simp [Except.isOk, Except.toBool]
  | ok a => simp [Except.isOk, Except.toBool]

/-- C13: for every valid mesh primitive `p` (implementation-specific, or
generic with value 1 to 10), `hasVkPrimitiveTopology(p)` returns a value, and
that value is true if and only if `p` is implementation-specific or is one of
Points (1), Lines (2), LineStrip (4), Triangles (5), TriangleStrip (6),
TriangleFan (7); for the generic LineLoop (3), Instances (8), Faces (9) and
Edges (10) it is false. -/
theorem hasVkPrimitiveTopology_supported_set (isSpecific : Nat → Bool) (p : Nat)
    (hvalid : validMeshPrimitive isSpecific p) :
    ∃ r : Bool, hasVkPrimitiveTopology isSpecific p = Except.ok r ∧
      (r = true ↔
        (isSpecific p = true ∨ p = Magnum.MeshPrimitive.Points ∨
          p = Magnum.MeshPrimitive.Lines ∨ p = Magnum.MeshPrimitive.LineStrip ∨
          p = Magnum.MeshPrimitive.Triangles ∨ p = Magnum.MeshPrimitive.TriangleStrip ∨
          p = Magnum.MeshPrimitive.TriangleFan)) ∧
      (isSpecific p = false →
        (p = Magnum.MeshPrimitive.LineLoop ∨ p = Magnum.MeshPrimitive.Instances ∨
          p = Magnum.MeshPrimitive.Faces ∨ p = Magnum.MeshPrimitive.Edges) →
        r = false) := by
  cases hs : isSpecific p with
  | true =>
    refine ⟨true, ?_, by simp, by simp⟩
    simp [hasVkPrimitiveTopology, hs]
  | false =>
    have hrange : 1 ≤ p ∧ p ≤ 10 := by
      rcases hvalid with h | h
      · rw [hs] at h
        exact absurd h (by decide)
      · exact h
    obtain ⟨h1, h2⟩ := hrange
    rw [hasVkPrimitiveTopology_generic isSpecific p hs]
    simp only [Magnum.MeshPrimitive.Points, Magnum.MeshPrimitive.Lines,
      Magnum.MeshPrimitive.LineStrip, Magnum.MeshPrimitive.Triangles,
      Magnum.MeshPrimitive.TriangleStrip, Magnum.MeshPrimitive.TriangleFan,
      Magnum.MeshPrimitive.LineLoop, Magnum.MeshPrimitive.Instances,
      Magnum.MeshPrimitive.Faces, Magnum.MeshPrimitive.Edges]
    interval_cases p
    · exact ⟨true, by decide, by decide, by decide⟩
    · exact ⟨true, by decide, by decide, by decide⟩
    · exact ⟨false, by decide, by decide, by decide⟩
    · exact ⟨true, by decide, by decide, by decide⟩
    · exact ⟨true, by decide, by decide, by decide⟩
    · exact ⟨true, by decide, by decide, by decide⟩
    · exact ⟨true, by decide, by decide, by decide⟩
    · exact ⟨false, by decide, by decide, by decide⟩
    · exact ⟨false, by decide, by decide, by decide⟩
    · exact ⟨false, by decide, by decide, by decide⟩

/-- Instances of C13, with the highest bit as the implementation-specific
mark: the generic Triangles (5) is available. -/
theorem hasVkPrimitiveTopology_supported_set_witness :
    validMeshPrimitive highBitSet 5 ∧
    hasVkPrimitiveTopology highBitSet Magnum.MeshPrimitive.Triangles = Except.ok true := by
  have hvalid : validMeshPrimitive highBitSet 5 := Or.inr ⟨by decide, by decide⟩
  obtain ⟨r, hr, hiff, -⟩ := hasVkPrimitiveTopology_supported_set highBitSet 5 hvalid
  refine ⟨hvalid, ?_⟩
  have : r = true := hiff.mpr (Or.inr (Or.inr (Or.inr (Or.inr (Or.inl rfl)))))
  rw [← this]
  exact hr

theorem vkPrimitiveTopology_generic_injective :
    ∀ p, p ≤ 10 → ∀ q, q ≤ 10 →
      vkPrimitiveTopology (fun _ => false) (fun x => x) p =
        vkPrimitiveTopology (fun _ => false) (fun x => x) q →
      (vkPrimitiveTopology (fun _ => false) (fun x => x) p).isOk = true → p = q := by
  decide

/-- C14: when the generic values 1 to 10 are not implementation-specific,
`vkPrimitiveTopology` maps Points to POINT_LIST, Lines to LINE_LIST, LineStrip
to LINE_STRIP, Triangles to TRIANGLE_LIST, TriangleStrip to TRIANGLE_STRIP and
TriangleFan to TRIANGLE_FAN; two generic primitives that are given the same
topology are the same primitive; and for every implementation-specific
primitive the result is `meshPrimitiveUnwrap` of it, whatever the table
holds. -/
theorem vkPrimitiveTopology_mapping (isSpecific : Nat → Bool) (unwrap : Nat → Nat)
    (hgeneric : ∀ p, 1 ≤ p → p ≤ 10 → isSpecific p = false) :
    vkPrimitiveTopology isSpecific unwrap Magnum.MeshPrimitive.Points =
      Except.ok VK_PRIMITIVE_TOPOLOGY_POINT_LIST ∧
    vkPrimitiveTopology isSpecific unwrap Magnum.MeshPrimitive.Lines =
      Except.ok VK_PRIMITIVE_TOPOLOGY_LINE_LIST ∧
    vkPrimitiveTopology isSpecific unwrap Magnum.MeshPrimitive.LineStrip =
      Except.ok VK_PRIMITIVE_TOPOLOGY_LINE_STRIP ∧
    vkPrimitiveTopology isSpecific unwrap Magnum.MeshPrimitive.Triangles =
      Except.ok VK_PRIMITIVE_TOPOLOGY_TRIANGLE_LIST ∧
    vkPrimitiveTopology isSpecific unwrap Magnum.MeshPrimitive.TriangleStrip =
      Except.ok VK_PRIMITIVE_TOPOLOGY_TRIANGLE_STRIP ∧
    vkPrimitiveTopology isSpecific unwrap Magnum.MeshPrimitive.TriangleFan =
      Except.ok VK_PRIMITIVE_TOPOLOGY_TRIANGLE_FAN ∧
    (∀ p q t, 1 ≤ p → p ≤ 10 → 1 ≤ q → q ≤ 10 →
      vkPrimitiveTopology isSpecific unwrap p = Except.ok t →
      vkPrimitiveTopology isSpecific unwrap q = Except.ok t → p = q) ∧
    (∀ p, isSpecific p = true →
      vkPrimitiveTopology isSpecific unwrap p = Except.ok (unwrap p)) := by
  have row : ∀ p, 1 ≤ p → p ≤ 10 →
      vkPrimitiveTopology isSpecific unwrap p =
        vkPrimitiveTopology (fun _ => false) (fun x => x) p :=
    fun p h1 h2 => vkPrimitiveTopology_generic isSpecific unwrap p (hgeneric p h1 h2)
  refine ⟨?_, ?_, ?_, ?_, ?_, ?_, ?_, ?_⟩
  · rw [row _ (by decide) (by decide)]; decide
  · rw [row _ (by decide) (by decide)]; decide
  · rw [row _ (by decide) (by decide)]; decide
  · rw [row _ (by decide) (by decide)]; decide
  · rw [row _ (by decide) (by decide)]; decide
  · rw [row _ (by decide) (by decide)]; decide
  · intro p q t hp1 hp2 hq1 hq2 hp hq
    rw [row p hp1 hp2] at hp
    rw [row q hq1 hq2] at hq
    refine vkPrimitiveTopology_generic_injective p hp2 q hq2 (by rw [hp, hq]) ?_
    rw [hp]
    rfl
  · intro p hs
    simp [vkPrimitiveTopology, hs]

/-- Instances of C14, with the highest bit as the implementation-specific
mark and its removal as the unwrapping: Triangles (5) gives TRIANGLE_LIST, and
the wrapped value 2147483648 + 3 gives 3 without a table lookup. -/
theorem vkPrimitiveTopology_mapping_witness :
    (∀ p, 1 ≤ p → p ≤ 10 → highBitSet p = false) ∧
    vkPrimitiveTopology highBitSet clearHighBit Magnum.MeshPrimitive.Triangles =
      Except.ok VK_PRIMITIVE_TOPOLOGY_TRIANGLE_LIST ∧
    vkPrimitiveTopology highBitSet clearHighBit 2147483651 = Except.ok 3 := by
  have hgeneric : ∀ p, 1 ≤ p → p ≤ 10 → highBitSet p = false := by
    intro p h1 h2
    interval_cases p <;> decide
  have h := vkPrimitiveTopology_mapping highBitSet clearHighBit hgeneric
  exact ⟨hgeneric, h.2.2.2.1, by decide⟩

/-- C15: for every valid mesh primitive `p` (implementation-specific, or
generic with value 1 to 10), `vkPrimitiveTopology(p)` returns a topology if
and only if `hasVkPrimitiveTopology(p)` returns true; when it does not, it
fails the "unsupported primitive" assertion and `hasVkPrimitiveTopology(p)`
returns false. -/
theorem availability_agrees_with_conversion (isSpecific : Nat → Bool) (unwrap : Nat → Nat)
    (p : Nat) (hvalid : validMeshPrimitive isSpecific p) :
    ((∃ t, vkPrimitiveTopology isSpecific unwrap p = Except.ok t) ↔
      hasVkPrimitiveTopology isSpecific p = Except.ok true) ∧
    ((vkPrimitiveTopology isSpecific unwrap p = Except.error AssertionFailure.unsupported) ↔
      hasVkPrimitiveTopology isSpecific p = Except.ok false) ∧
    vkPrimitiveTopology isSpecific unwrap p ≠ Except.error AssertionFailure.invalid ∧
    hasVkPrimitiveTopology isSpecific p ≠ Except.error AssertionFailure.invalid := by
  cases hs : isSpecific p with
  | true =>
    have h1 : vkPrimitiveTopology isSpecific unwrap p = Except.ok (unwrap p) := by
      simp [vkPrimitiveTopology, hs]
    have h2 : hasVkPrimitiveTopology isSpecific p = Except.ok true := by
      simp [hasVkPrimitiveTopology, hs]
    rw [h1, h2]
    simp
  | false =>
    have hrange : 1 ≤ p ∧ p ≤ 10 := by
      rcases hvalid with h | h
      · rw [hs] at h
        exact absurd h (by decide)
      · exact h
    obtain ⟨h1, h2⟩ := hrange
    rw [hasVkPrimitiveTopology_generic isSpecific p hs,
      vkPrimitiveTopology_generic isSpecific unwrap p hs, except_exists_ok_iff]
    interval_cases p <;> decide

/-- Instances of C15, with the highest bit as the implementation-specific
mark: for LineLoop (3) the conversion fails its "unsupported primitive"
assertion and the query returns false. -/
theorem availability_agrees_with_conversion_witness :
    validMeshPrimitive highBitSet Magnum.MeshPrimitive.LineLoop ∧
    vkPrimitiveTopology highBitSet clearHighBit Magnum.MeshPrimitive.LineLoop =
      Except.error AssertionFailure.unsupported ∧
    hasVkPrimitiveTopology highBitSet Magnum.MeshPrimitive.LineLoop = Except.ok false := by
  have hvalid : validMeshPrimitive highBitSet Magnum.MeshPrimitive.LineLoop :=
    Or.inr ⟨by decide, by decide⟩
  have h := availability_agrees_with_conversion highBitSet clearHighBit
    Magnum.MeshPrimitive.LineLoop hvalid
  have hfalse : hasVkPrimitiveTopology highBitSet Magnum.MeshPrimitive.LineLoop =
      Except.ok false := by decide
  exact ⟨hvalid, h.2.1.mpr hfalse, hfalse⟩

/-- C16: for the three generic index types UnsignedByte (1), UnsignedShort (2)
and UnsignedInt (3), `hasVkIndexType` returns true and `vkIndexType` returns
UINT8_EXT, UINT16 and UINT32; the table holds no sentinel, so no value at all
makes `vkIndexType` fail its "unsupported type" assertion or makes
`hasVkIndexType` return false. -/
theorem index_type_mapping_total :
    hasVkIndexType Magnum.MeshIndexType.UnsignedByte = Except.ok true ∧
    hasVkIndexType Magnum.MeshIndexType.UnsignedShort = Except.ok true ∧
    hasVkIndexType Magnum.MeshIndexType.UnsignedInt = Except.ok true ∧
    vkIndexType Magnum.MeshIndexType.UnsignedByte = Except.ok VK_INDEX_TYPE_UINT8_EXT ∧
    vkIndexType Magnum.MeshIndexType.UnsignedShort = Except.ok VK_INDEX_TYPE_UINT16 ∧
    vkIndexType Magnum.MeshIndexType.UnsignedInt = Except.ok VK_INDEX_TYPE_UINT32 ∧
    unsupportedSentinel ∉ IndexTypeMapping ∧
    (∀ type, vkIndexType type ≠ Except.error AssertionFailure.unsupported) ∧
    (∀ type, hasVkIndexType type ≠ Except.ok false) := by
  have hmem : ∀ x ∈ IndexTypeMapping, x ≠ unsupportedSentinel := by decide
  refine ⟨by decide, by decide, by decide, by decide, by decide, by decide, ?_, ?_, ?_⟩
  · intro hin
    exact hmem _ hin rfl
  · intro type
    unfold vkIndexType
    by_cases h : wrappingSub type 1 < IndexTypeMapping.length
    · rw [dif_pos h]
      have hne := hmem _ (List.getElem_mem h)
      show (if _ then _ else _) ≠ _
      rw [if_pos hne]
      exact Except.noConfusion
    · rw [dif_neg h]
      decide
  · intro type
    unfold hasVkIndexType
    by_cases h : wrappingSub type 1 < IndexTypeMapping.length
    · rw [dif_pos h]
      have hne := hmem _ (List.getElem_mem h)
      intro hc
      have hb := Except.ok.inj hc
      exact hne (by simpa using hb)
    · rw [dif_neg h]
      decide

/-- C17: for the five sampler wrappings Repeat (0), MirroredRepeat (1),
ClampToEdge (2), ClampToBorder (3) and MirrorClampToEdge (4),
`hasVkSamplerAddressMode` returns true and `vkSamplerAddressMode` returns
REPEAT, MIRRORED_REPEAT, CLAMP_TO_EDGE, CLAMP_TO_BORDER and
MIRROR_CLAMP_TO_EDGE; no value makes `vkSamplerAddressMode` fail its
"unsupported wrapping" assertion; for every value of 5 or more both functions
fail their "invalid wrapping" assertion. -/
theorem sampler_address_mode_mapping :
    hasVkSamplerAddressMode Magnum.SamplerWrapping.Repeat = Except.ok true ∧
    hasVkSamplerAddressMode Magnum.SamplerWrapping.MirroredRepeat = Except.ok true ∧
    hasVkSamplerAddressMode Magnum.SamplerWrapping.ClampToEdge = Except.ok true ∧
    hasVkSamplerAddressMode Magnum.SamplerWrapping.ClampToBorder = Except.ok true ∧
    hasVkSamplerAddressMode Magnum.SamplerWrapping.MirrorClampToEdge = Except.ok true ∧
    vkSamplerAddressMode Magnum.SamplerWrapping.Repeat =
      Except.ok VK_SAMPLER_ADDRESS_MODE_REPEAT ∧
    vkSamplerAddressMode Magnum.SamplerWrapping.MirroredRepeat =
      Except.ok VK_SAMPLER_ADDRESS_MODE_MIRRORED_REPEAT ∧
    vkSamplerAddressMode Magnum.SamplerWrapping.ClampToEdge =
      Except.ok VK_SAMPLER_ADDRESS_MODE_CLAMP_TO_EDGE ∧
    vkSamplerAddressMode Magnum.SamplerWrapping.ClampToBorder =
      Except.ok VK_SAMPLER_ADDRESS_MODE_CLAMP_TO_BORDER ∧
    vkSamplerAddressMode Magnum.SamplerWrapping.MirrorClampToEdge =
      Except.ok VK_SAMPLER_ADDRESS_MODE_MIRROR_CLAMP_TO_EDGE ∧
    (∀ wrapping, vkSamplerAddressMode wrapping ≠ Except.error AssertionFailure.unsupported) ∧
    (∀ wrapping, 5 ≤ wrapping →
      hasVkSamplerAddressMode wrapping = Except.error AssertionFailure.invalid ∧
      vkSamplerAddressMode wrapping = Except.error AssertionFailure.invalid) := by
  refine ⟨by decide, by decide, by decide, by decide, by decide, by decide, by decide,
    by decide, by decide, by decide, ?_, ?_⟩
  · intro wrapping
    have hmem : ∀ x ∈ SamplerAddressModeMapping, x ≠ unsupportedSentinel := by decide
    unfold vkSamplerAddressMode
    by_cases h : wrapping < SamplerAddressModeMapping.length
    · rw [dif_pos h]
      have hne := hmem _ (List.getElem_mem h)
      show (if _ then _ else _) ≠ _
      rw [if_pos hne]
      exact Except.noConfusion
    · rw [dif_neg h]
      decide
  · intro wrapping h5
    have h : ¬ wrapping < SamplerAddressModeMapping.length := by
      show ¬ wrapping < 5
      omega
    unfold hasVkSamplerAddressMode vkSamplerAddressMode
    rw [dif_neg h, dif_neg h]
    exact ⟨rfl, rfl⟩

/-- C18: `vkSamplerMipmapMode` returns a value for the three mipmap modes:
MIPMAP_MODE_NEAREST for both Base (0) and Nearest (1), MIPMAP_MODE_LINEAR for
Linear (2); Base and Nearest are different modes with the same result, so the
function is not injective; for every value of 3 or more it fails its
"invalid mode" assertion. -/
theorem sampler_mipmap_mode_mapping :
    vkSamplerMipmapMode Magnum.SamplerMipmap.Base =
      Except.ok VK_SAMPLER_MIPMAP_MODE_NEAREST ∧
    vkSamplerMipmapMode Magnum.SamplerMipmap.Nearest =
      Except.ok VK_SAMPLER_MIPMAP_MODE_NEAREST ∧
    vkSamplerMipmapMode Magnum.SamplerMipmap.Linear =
      Except.ok VK_SAMPLER_MIPMAP_MODE_LINEAR ∧
    Magnum.SamplerMipmap.Base ≠ Magnum.SamplerMipmap.Nearest ∧
    VK_SAMPLER_MIPMAP_MODE_NEAREST ≠ VK_SAMPLER_MIPMAP_MODE_LINEAR ∧
    ¬ Function.Injective vkSamplerMipmapMode ∧
    (∀ mipmap, 3 ≤ mipmap →
      vkSamplerMipmapMode mipmap = Except.error AssertionFailure.invalid) := by
  refine ⟨by decide, by decide, by decide, by decide, by decide, ?_, ?_⟩
  · intro hinj
    have h01 : vkSamplerMipmapMode 0 = vkSamplerMipmapMode 1 := by decide
    exact absurd (hinj h01) (by decide)
  · intro mipmap h3
    have h : ¬ mipmap < SamplerMipmapModeMapping.length := by
      show ¬ mipmap < 3
      omega
    unfold vkSamplerMipmapMode
    rw [dif_neg h]

end Vk

namespace Math

/-! ## Complex numbers -/

/-- C19: for all complex numbers `a0 + i b0` and `a1 + i b1` over a scalar
type with commutative multiplication, the product has real part
`a0 a1 - b0 b1` and imaginary part `a1 b0 + a0 b1`. -/
theorem complex_mul_parts {T : Type} [Add T] [Sub T] [CommMagma T] (a0 b0 a1 b1 : T) :
    (({ _real := a0, _imaginary := b0 } : Complex T) * { _real := a1, _imaginary := b1 }).real =
      a0 * a1 - b0 * b1 ∧
    (({ _real := a0, _imaginary := b0 } : Complex T) *
      { _real := a1, _imaginary := b1 }).imaginary = a1 * b0 + a0 * b1 := by
  refine ⟨rfl, ?_⟩
  show b0 * a1 + a0 * b1 = a1 * b0 + a0 * b1
  rw [mul_comm b0 a1]

/-- C20: over a field, for every complex number `c` whose `dot()` is not zero,
`c * c.inverted()` and `c.inverted() * c` are both `1 + i0`, where
`inverted()` is `conjugated() / dot()`. -/
theorem inverted_is_multiplicative_inverse {T : Type} [Field T] (c : Complex T)
    (h : c.dot ≠ 0) :
    c * c.inverted = Complex.unit ∧
    c.inverted * c = Complex.unit ∧
    c.inverted = c.conjugated / c.dot := by
  have hd : c._real * c._real + c._imaginary * c._imaginary ≠ 0 := h
  refine ⟨?_, ?_, rfl⟩
  · ext
    · show c._real * (c._real / c.dot) - c._imaginary * (-c._imaginary / c.dot) = 1
      unfold Complex.dot Complex.dotProduct
      field_simp
    · show c._imaginary * (c._real / c.dot) + c._real * (-c._imaginary / c.dot) = 0
      unfold Complex.dot Complex.dotProduct
      field_simp
      ring
  · ext
    · show c._real / c.dot * c._real - -c._imaginary / c.dot * c._imaginary = 1
      unfold Complex.dot Complex.dotProduct
      field_simp
    · show -c._imaginary / c.dot * c._real + c._real / c.dot * c._imaginary = 0
      unfold Complex.dot Complex.dotProduct
      field_simp
      ring

/-- Instance of C20 over the rationals: `3 + 4i` has `dot()` 25 and its
product with its inverse `3/25 - 4/25 i` is `1 + i0`. -/
theorem inverted_is_multiplicative_inverse_witness :
    Complex.dot ({ _real := 3, _imaginary := 4 } : Complex ℚ) ≠ 0 ∧
    ({ _real := 3, _imaginary := 4 } : Complex ℚ) *
      Complex.inverted ({ _real := 3, _imaginary := 4 } : Complex ℚ) =
      ({ _real := 1, _imaginary := 0 } : Complex ℚ) ∧
    Complex.inverted ({ _real := 3, _imaginary := 4 } : Complex ℚ) =
      ({ _real := 3 / 25, _imaginary := -4 / 25 } : Complex ℚ) := by
  have hdot : Complex.dot ({ _real := 3, _imaginary := 4 } : Complex ℚ) ≠ 0 := by
    norm_num [Complex.dot, Complex.dotProduct]
  refine ⟨hdot, (inverted_is_multiplicative_inverse _ hdot).1, ?_⟩
  show Complex.divScalar _ _ = _
  simp only [Complex.divScalar, Complex.conjugated, Complex.dot, Complex.dotProduct]
  ext <;> norm_num

theorem Complex.div_scalar_def {T : Type} [Div T] (c : Complex T) (t : T) :
    c / t = { _real := c._real / t, _imaginary := c._imaginary / t } :=
  rfl

/-- C21: over a field, with a comparison that accepts equal values, for every
complex number `c` with `c.dot() = 1` the call `c.invertedNormalized()` returns
`c.conjugated()`, and `c.conjugated()` is `c.inverted()`. -/
theorem invertedNormalized_is_conjugated_is_inverted {T : Type} [Field T]
    (equals : T → T → Bool) (quietNaN : T) (hequals : ∀ x, equals x x = true)
    (c : Complex T) (h : c.dot = 1) :
    Complex.invertedNormalized equals quietNaN c = Except.ok c.conjugated ∧
    c.conjugated = c.inverted := by
  constructor
  · unfold Complex.invertedNormalized
    rw [h, hequals 1]
    rfl
  · unfold Complex.inverted
    rw [h, Complex.div_scalar_def]
    ext <;> simp

/-- Instance of C21 over the rationals with exact comparison: `3/5 + 4/5 i`
has `dot()` 1, and its normalized inverse, conjugate and inverse are all
`3/5 - 4/5 i`. -/
theorem invertedNormalized_is_conjugated_is_inverted_witness :
    (∀ x : ℚ, (fun a b : ℚ => decide (a = b)) x x = true) ∧
    Complex.dot ({ _real := 3 / 5, _imaginary := 4 / 5 } : Complex ℚ) = 1 ∧
    Complex.invertedNormalized (fun a b : ℚ => decide (a = b)) 0
      ({ _real := 3 / 5, _imaginary := 4 / 5 } : Complex ℚ) =
      Except.ok ({ _real := 3 / 5, _imaginary := -(4 / 5) } : Complex ℚ) := by
  have hequals : ∀ x : ℚ, (fun a b : ℚ => decide (a = b)) x x = true := by
    intro x
    simp
  have hdot : Complex.dot ({ _real := 3 / 5, _imaginary := 4 / 5 } : Complex ℚ) = 1 := by
    norm_num [Complex.dot, Complex.dotProduct]
  exact ⟨hequals, hdot,
    (invertedNormalized_is_conjugated_is_inverted (fun a b : ℚ => decide (a = b)) 0 hequals
      _ hdot).1⟩

/-- C22: `invertedNormalized()` always returns: when `dot()` is not equal to 1
under the comparison of `MathTypeTraits` it returns the failure value (NaN real
part, zero imaginary part) with the diagnostic "complex number must be
normalized", and only then; otherwise it returns `conjugated()` without a
diagnostic. -/
theorem invertedNormalized_fails_iff_not_normalized {T : Type} [Add T] [Mul T] [Neg T]
    [One T] [Zero T] (equals : T → T → Bool) (quietNaN : T) (c : Complex T) :
    (equals c.dot 1 = false ↔
      Complex.invertedNormalized equals quietNaN c =
        Except.error
          { message := Complex.invertedNormalizedMessage
            value := { _real := quietNaN, _imaginary := 0 } }) ∧
    (equals c.dot 1 = true ↔
      Complex.invertedNormalized equals quietNaN c = Except.ok c.conjugated) := by
  cases h : equals c.dot 1 <;> simp [Complex.invertedNormalized, h]

/-- C23: `angle(a, b)` returns the NaN failure value with the diagnostic
"complex numbers must be normalized" if and only if `a.dot()` or `b.dot()` is
not equal to 1 under the comparison, whichever of the two operands it is;
otherwise it returns `acos` of the dot product of `a` and `b`. -/
theorem angle_fails_iff_an_operand_not_normalized {T : Type} [Add T] [Mul T] [One T]
    (equals : T → T → Bool) (quietNaN : T) (acos : T → T) (a b : Complex T) :
    ((equals a.dot 1 = false ∨ equals b.dot 1 = false) ↔
      Complex.angle equals quietNaN acos a b =
        Except.error { message := Complex.angleMessage, value := quietNaN }) ∧
    ((equals a.dot 1 = true ∧ equals b.dot 1 = true) ↔
      Complex.angle equals quietNaN acos a b =
        Except.ok (acos (Complex.dotProduct a b))) := by
  cases ha : equals a.dot 1 <;> cases hb : equals b.dot 1 <;>
    simp [Complex.angle, Complex.dotProduct, ha, hb]

/-- Instance of C23 over the rationals with exact comparison, after the test
of `Vector::angle`: a normalized first operand `3/5 + 4/5 i` with the
non-normalized second operand `1 + 2i`, and the reverse, both give the
failure value. -/
theorem angle_fails_iff_an_operand_not_normalized_witness :
    Complex.angle (fun a b : ℚ => decide (a = b)) 0 (fun x => x)
      ({ _real := 3 / 5, _imaginary := 4 / 5 } : Complex ℚ) { _real := 1, _imaginary := 2 } =
      Except.error { message := Complex.angleMessage, value := 0 } ∧
    Complex.angle (fun a b : ℚ => decide (a = b)) 0 (fun x => x)
      ({ _real := 1, _imaginary := 2 } : Complex ℚ) { _real := 3 / 5, _imaginary := 4 / 5 } =
      Except.error { message := Complex.angleMessage, value := 0 } := by
  have hb : (fun a b : ℚ => decide (a = b))
      (Complex.dot ({ _real := 1, _imaginary := 2 } : Complex ℚ)) 1 = false := by
    norm_num [Complex.dot, Complex.dotProduct]
  exact ⟨(angle_fails_iff_an_operand_not_normalized _ 0 (fun x => x) _ _).1.mp (Or.inr hb),
    (angle_fails_iff_an_operand_not_normalized _ 0 (fun x => x) _ _).1.mp (Or.inl hb)⟩

/-- C24: over a commutative ring, for every complex number `a + i b` and
vector `(x, y)`, `transformVector` gives `(a x - b y, b x + a y)`; the matrix
of `toMatrix()` has the columns `(a, b)` and `(-b, a)`, that is the rows
`(a, -b)` and `(b, a)`, and its product with `(x, y)` is the same vector. -/
theorem transformVector_is_matrix_product {T : Type} [CommRing T] (a b x y : T) :
    Complex.transformVector { _real := a, _imaginary := b } { x := x, y := y } =
      { x := a * x - b * y, y := b * x + a * y } ∧
    Complex.toMatrix ({ _real := a, _imaginary := b } : Complex T) =
      { column0 := { x := a, y := b }, column1 := { x := -b, y := a } } ∧
    (Complex.toMatrix ({ _real := a, _imaginary := b } : Complex T)).entries =
      Matrix.of ![![a, -b], ![b, a]] ∧
    Matrix.mulVec (Complex.toMatrix ({ _real := a, _imaginary := b } : Complex T)).entries
      ![x, y] =
      ![(Complex.transformVector { _real := a, _imaginary := b } { x := x, y := y }).x,
        (Complex.transformVector { _real := a, _imaginary := b } { x := x, y := y }).y] := by
  refine ⟨rfl, rfl, rfl, ?_⟩
  funext i
  fin_cases i
  · show Matrix.mulVec (Matrix.of ![![a, -b], ![b, a]]) ![x, y] 0 = a * x - b * y
    simp [Matrix.mulVec, Matrix.dotProduct, Fin.sum_univ_two]
    ring
  · show Matrix.mulVec (Matrix.of ![![a, -b], ![b, a]]) ![x, y] 1 = b * x + a * y
    simp [Matrix.mulVec, Matrix.dotProduct, Fin.sum_univ_two]

/-- C25: for every scalar `t` and complex number `a + i b`, `operator/(t, c)`
returns `t/a + i (t/b)`: the scalar divided by each component separately. -/
theorem scalar_over_complex_is_componentwise {T : Type} [Div T] (t a b : T) :
    Complex.scalarDiv t { _real := a, _imaginary := b } =
      { _real := t / a, _imaginary := t / b } ∧
    (Complex.scalarDiv t { _real := a, _imaginary := b }).real = t / a ∧
    (Complex.scalarDiv t { _real := a, _imaginary := b }).imaginary = t / b :=
  ⟨rfl, rfl, rfl⟩

/-- C26: over the reals, with `hypot(a, b)` the square root of `a² + b²`, for
every complex number `c` of non-zero length, `c.normalized()` is `c / length()`,
has `dot()` equal to 1, and `length()` is the square root of `dot()`. -/
theorem normalized_has_unit_dot (hypot : ℝ → ℝ → ℝ)
    (hhypot : ∀ a b, hypot a b = Real.sqrt (a ^ 2 + b ^ 2)) (c : Complex ℝ)
    (h : c.length hypot ≠ 0) :
    (c.normalized hypot).dot = 1 ∧
    c.normalized hypot = c / c.length hypot ∧
    c.length hypot = Real.sqrt c.dot := by
  have hlen : c.length hypot = Real.sqrt (c._real ^ 2 + c._imaginary ^ 2) := hhypot _ _
  have hnonneg : 0 ≤ c._real ^ 2 + c._imaginary ^ 2 := by positivity
  have hsq : c.length hypot * c.length hypot = c._real ^ 2 + c._imaginary ^ 2 := by
    rw [hlen]
    exact Real.mul_self_sqrt hnonneg
  refine ⟨?_, rfl, ?_⟩
  · show c._real / c.length hypot * (c._real / c.length hypot) +
        c._imaginary / c.length hypot * (c._imaginary / c.length hypot) = 1
    field_simp
    rw [hsq]
    ring
  · rw [hlen]
    congr 1
    show c._real ^ 2 + c._imaginary ^ 2 = c._real * c._real + c._imaginary * c._imaginary
    ring

/-- Instance of C26: `3 + 4i` has length 5 and its normalization has `dot()`
equal to 1. -/
theorem normalized_has_unit_dot_witness :
    (∀ a b : ℝ, (fun a b : ℝ => Real.sqrt (a ^ 2 + b ^ 2)) a b = Real.sqrt (a ^ 2 + b ^ 2)) ∧
    Complex.length (fun a b : ℝ => Real.sqrt (a ^ 2 + b ^ 2))
      ({ _real := 3, _imaginary := 4 } : Complex ℝ) ≠ 0 ∧
    (Complex.normalized (fun a b : ℝ => Real.sqrt (a ^ 2 + b ^ 2))
      ({ _real := 3, _imaginary := 4 } : Complex ℝ)).dot = 1 := by
  have hlen : Complex.length (fun a b : ℝ => Real.sqrt (a ^ 2 + b ^ 2))
      ({ _real := 3, _imaginary := 4 } : Complex ℝ) ≠ 0 := by
    show Real.sqrt ((3 : ℝ) ^ 2 + 4 ^ 2) ≠ 0
    have hpos : (0 : ℝ) < 3 ^ 2 + 4 ^ 2 := by norm_num
    exact (Real.sqrt_pos.mpr hpos).ne.symm
  exact ⟨fun _ _ => rfl, hlen,
    (normalized_has_unit_dot (fun a b : ℝ => Real.sqrt (a ^ 2 + b ^ 2)) (fun _ _ => rfl)
      _ hlen).1⟩

/-! ## Vectors -/

theorem foldl_min_spec {T : Type} [LinearOrder T] (f : T → T) (l : List T) (a : T) :
    l.foldl (fun out x => Min.min out (f x)) a ≤ a ∧
    (∀ x ∈ l, l.foldl (fun out x => Min.min out (f x)) a ≤ f x) ∧
    (l.foldl (fun out x => Min.min out (f x)) a = a ∨
      ∃ x ∈ l, l.foldl (fun out x => Min.min out (f x)) a = f x) := by
  induction l generalizing a with
  | nil => simp
  | cons y ys ih =>
    obtain ⟨h1, h2, h3⟩ := ih (Min.min a (f y))
    simp only [List.foldl_cons]
    refine ⟨le_trans h1 (min_le_left _ _), ?_, ?_⟩
    · intro x hx
      rcases List.mem_cons.mp hx with rfl | hx
      · exact le_trans h1 (min_le_right _ _)
      · exact h2 x hx
    · rcases h3 with h3 | ⟨x, hx, h3⟩
      · rcases min_choice a (f y) with hm | hm
        · left
          rw [h3]
          exact hm
        · right
          exact ⟨y, List.mem_cons_self _ _, by rw [h3]; exact hm⟩
      · right
        exact ⟨x, List.mem_cons_of_mem _ hx, h3⟩

theorem foldl_max_spec {T : Type} [LinearOrder T] (f : T → T) (l : List T) (a : T) :
    a ≤ l.foldl (fun out x => Max.max out (f x)) a ∧
    (∀ x ∈ l, f x ≤ l.foldl (fun out x => Max.max out (f x)) a) ∧
    (l.foldl (fun out x => Max.max out (f x)) a = a ∨
      ∃ x ∈ l, l.foldl (fun out x => Max.max out (f x)) a = f x) := by
  induction l generalizing a with
  | nil => simp
  | cons y ys ih =>
    obtain ⟨h1, h2, h3⟩ := ih (Max.max a (f y))
    simp only [List.foldl_cons]
    refine ⟨le_trans (le_max_left _ _) h1, ?_, ?_⟩
    · intro x hx
      rcases List.mem_cons.mp hx with rfl | hx
      · exact le_trans (le_max_right _ _) h1
      · exact h2 x hx
    · rcases h3 with h3 | ⟨x, hx, h3⟩
      · rcases max_choice a (f y) with hm | hm
        · left
          rw [h3]
          exact hm
        · right
          exact ⟨y, List.mem_cons_self _ _, by rw [h3]; exact hm⟩
      · right
        exact ⟨x, List.mem_cons_of_mem _ hx, h3⟩

theorem Vector.component_first_or_rest {size : Nat} {T : Type} (v : Vector (size + 1) T)
    (i : Fin (size + 1)) : v._data i = v._data 0 ∨ v._data i ∈ v.rest := by
  refine Fin.cases ?_ ?_ i
  · left
    rfl
  · intro j
    right
    exact (List.mem_ofFn _ _).mpr ⟨j, rfl⟩

theorem Vector.rest_is_component {size : Nat} {T : Type} (v : Vector (size + 1) T) (x : T)
    (hx : x ∈ v.rest) : ∃ i, x = v._data i := by
  obtain ⟨j, hj⟩ := (List.mem_ofFn _ _).mp hx
  exact ⟨j.succ, hj.symm⟩

theorem Floating.number_lt_number {T : Type} [LT T] (x y : T) :
    (Floating.number x < Floating.number y) ↔ x < y := Iff.rfl

theorem Floating.number_le_number {T : Type} [LE T] (x y : T) :
    (Floating.number x ≤ Floating.number y) ↔ x ≤ y := Iff.rfl

theorem Floating.not_nan_lt {T : Type} [LT T] (a : Floating T) :
    ¬ (Floating.nan < a) ∧ ¬ (a < Floating.nan) := by
  cases a <;> exact ⟨fun h => h, fun h => h⟩

theorem Floating.not_nan_le {T : Type} [LE T] (a : Floating T) :
    ¬ (Floating.nan ≤ a) ∧ ¬ (a ≤ Floating.nan) := by
  cases a <;> exact ⟨fun h => h, fun h => h⟩

theorem Floating.min_number {T : Type} [LinearOrder T] (x y : T) :
    Min.min (Floating.number x) (Floating.number y) = Floating.number (Min.min x y) := by
  show (if Floating.number y < Floating.number x then Floating.number y
    else Floating.number x) = _
  rcases lt_or_le y x with h | h
  · rw [if_pos ((Floating.number_lt_number y x).mpr h), min_eq_right h.le]
  · rw [if_neg fun hlt => not_lt.mpr h ((Floating.number_lt_number y x).mp hlt), min_eq_left h]

theorem Floating.max_number {T : Type} [LinearOrder T] (x y : T) :
    Max.max (Floating.number x) (Floating.number y) = Floating.number (Max.max x y) := by
  show (if Floating.number x < Floating.number y then Floating.number y
    else Floating.number x) = _
  rcases lt_or_le x y with h | h
  · rw [if_pos ((Floating.number_lt_number x y).mpr h), max_eq_right h.le]
  · rw [if_neg fun hlt => not_lt.mpr h ((Floating.number_lt_number x y).mp hlt), max_eq_left h]

theorem Floating.foldl_min_number {T : Type} [LinearOrder T] (f : T → T) (l : List T) (a : T) :
    (l.map Floating.number).foldl (fun out x => Min.min out (Floating.map f x))
      (Floating.number a) =
      Floating.number (l.foldl (fun out x => Min.min out (f x)) a) := by
  induction l generalizing a with
  | nil => rfl
  | cons y ys ih =>
    simp only [List.map_cons, List.foldl_cons, Floating.map, Floating.min_number]
    exact ih _

theorem Floating.foldl_max_number {T : Type} [LinearOrder T] (f : T → T) (l : List T) (a : T) :
    (l.map Floating.number).foldl (fun out x => Max.max out (Floating.map f x))
      (Floating.number a) =
      Floating.number (l.foldl (fun out x => Max.max out (f x)) a) := by
  induction l generalizing a with
  | nil => rfl
  | cons y ys ih =>
    simp only [List.map_cons, List.foldl_cons, Floating.map, Floating.max_number]
    exact ih _

theorem Floating.map_id {T : Type} (a : Floating T) : Floating.map (fun x : T => x) a = a := by
  cases a <;> rfl

theorem Vector.numbers_of_no_nan {size : Nat} {T : Type} (f : Vector (size + 1) (Floating T))
    (h : ∀ i, f._data i ≠ Floating.nan) :
    ∃ w : Vector (size + 1) T, ∀ i, f._data i = Floating.number (w._data i) := by
  have hex : ∀ i, ∃ x, f._data i = Floating.number x := by
    intro i
    cases hi : f._data i with
    | nan => exact absurd hi (h i)
    | number x => exact ⟨x, rfl⟩
  choose w hw using hex
  exact ⟨{ _data := w }, hw⟩

theorem Vector.rest_numbers {size : Nat} {T : Type} (f : Vector (size + 1) (Floating T))
    (w : Vector (size + 1) T) (h : ∀ i, f._data i = Floating.number (w._data i)) :
    f.rest = w.rest.map Floating.number := by
  unfold Vector.rest
  rw [List.map_ofFn]
  congr 1
  funext i
  exact h i.succ

/-- The least and the greatest of the values `f x`, for `x` running over the
components of a vector over a linear order, found by folding over the
components from the first one on. -/
theorem Vector.extreme_of_fold {size : Nat} {T : Type} [LinearOrder T] (f : T → T)
    (v : Vector (size + 1) T) :
    (∃ i, v.rest.foldl (fun out x => Min.min out (f x)) (f (v._data 0)) = f (v._data i)) ∧
    (∀ i, v.rest.foldl (fun out x => Min.min out (f x)) (f (v._data 0)) ≤ f (v._data i)) ∧
    (∃ i, v.rest.foldl (fun out x => Max.max out (f x)) (f (v._data 0)) = f (v._data i)) ∧
    (∀ i, f (v._data i) ≤ v.rest.foldl (fun out x => Max.max out (f x)) (f (v._data 0))) := by
  obtain ⟨c1, c2, c3⟩ := foldl_min_spec f v.rest (f (v._data 0))
  obtain ⟨d1, d2, d3⟩ := foldl_max_spec f v.rest (f (v._data 0))
  refine ⟨?_, ?_, ?_, ?_⟩
  · rcases c3 with h | ⟨x, hx, h⟩
    · exact ⟨0, h⟩
    · obtain ⟨i, hi⟩ := v.rest_is_component x hx
      exact ⟨i, by rw [← hi]; exact h⟩
  · intro i
    rcases v.component_first_or_rest i with h | h
    · rw [h]
      exact c1
    · exact c2 _ h
  · rcases d3 with h | ⟨x, hx, h⟩
    · exact ⟨0, h⟩
    · obtain ⟨i, hi⟩ := v.rest_is_component x hx
      exact ⟨i, by rw [← hi]; exact h⟩
  · intro i
    rcases v.component_first_or_rest i with h | h
    · rw [h]
      exact d1
    · exact d2 _ h

theorem Vector.min_numbers {size : Nat} {T : Type} [LinearOrder T] (f : T → T)
    (x : Vector (size + 1) (Floating T)) (w : Vector (size + 1) T)
    (h : ∀ i, x._data i = Floating.number (w._data i)) :
    x.min = Floating.number w.min ∧ x.max = Floating.number w.max ∧
    x.rest.foldl (fun out t => Min.min out (Floating.map f t)) (Floating.map f (x._data 0)) =
      Floating.number (w.rest.foldl (fun out t => Min.min out (f t)) (f (w._data 0))) ∧
    x.rest.foldl (fun out t => Max.max out (Floating.map f t)) (Floating.map f (x._data 0)) =
      Floating.number (w.rest.foldl (fun out t => Max.max out (f t)) (f (w._data 0))) := by
  have hmin := Floating.foldl_min_number (fun t : T => t) w.rest (w._data 0)
  have hmax := Floating.foldl_max_number (fun t : T => t) w.rest (w._data 0)
  simp only [Floating.map_id] at hmin hmax
  refine ⟨?_, ?_, ?_, ?_⟩
  · unfold Vector.min
    rw [Vector.rest_numbers x w h, h 0]
    exact hmin
  · unfold Vector.max
    rw [Vector.rest_numbers x w h, h 0]
    exact hmax
  · rw [Vector.rest_numbers x w h, h 0]
    exact Floating.foldl_min_number f w.rest (f (w._data 0))
  · rw [Vector.rest_numbers x w h, h 0]
    exact Floating.foldl_max_number f w.rest (f (w._data 0))

theorem foldl_option_of_some {T : Type} (op : T → T → T) (abs : T → Option T) (g : T → T)
    (l : List T) (h : ∀ x ∈ l, abs x = some (g x)) (a : T) :
    l.foldl (fun out x => out.bind fun m => (abs x).map fun b => op m b) (some a) =
      some (l.foldl (fun out x => op out (g x)) a) := by
  induction l generalizing a with
  | nil => rfl
  | cons y ys ih =>
    simp only [List.foldl_cons, Option.some_bind, h y (List.mem_cons_self _ _), Option.map_some']
    exact ih (fun x hx => h x (List.mem_cons_of_mem _ hx)) _

theorem foldl_option_none {T : Type} (op : T → T → T) (abs : T → Option T) (l : List T) :
    l.foldl (fun out x => out.bind fun m => (abs x).map fun b => op m b) none = none := by
  induction l with
  | nil => rfl
  | cons y ys ih => simpa only [List.foldl_cons, Option.none_bind] using ih

theorem foldl_option_of_none {T : Type} (op : T → T → T) (abs : T → Option T) (l : List T)
    (h : ∃ x ∈ l, abs x = none) (out : Option T) :
    l.foldl (fun out x => out.bind fun m => (abs x).map fun b => op m b) out = none := by
  induction l generalizing out with
  | nil =>
    obtain ⟨x, hx, -⟩ := h
    exact absurd hx (List.not_mem_nil x)
  | cons y ys ih =>
    obtain ⟨x, hx, hnone⟩ := h
    simp only [List.foldl_cons]
    rcases List.mem_cons.mp hx with rfl | hx
    · have hstep : (out.bind fun m => (abs x).map fun b => op m b) = none := by
        cases out <;> simp [hnone]
      rw [hstep]
      exact foldl_option_none op abs ys
    · exact ih ⟨x, hx, hnone⟩ _

/-- The least and the greatest absolute value of the components, as `minAbs()`
and `maxAbs()` give them when `std::abs` has a value for every component. -/
theorem Vector.extreme_abs {size : Nat} {T : Type} [LinearOrder T] (abs : T → Option T)
    (v : Vector (size + 1) T) (h : ∀ i, (abs (v._data i)).isSome = true) :
    ∃ least greatest, v.minAbs abs = some least ∧ v.maxAbs abs = some greatest ∧
      (∃ i, abs (v._data i) = some least) ∧
      (∀ i a, abs (v._data i) = some a → least ≤ a) ∧
      (∃ i, abs (v._data i) = some greatest) ∧
      (∀ i a, abs (v._data i) = some a → a ≤ greatest) := by
  have hg : ∀ i, abs (v._data i) = some ((abs (v._data i)).getD (v._data i)) := by
    intro i
    cases hi : abs (v._data i) with
    | none =>
      have := h i
      rw [hi] at this
      exact Bool.noConfusion this
    | some a => rfl
  have hrest : ∀ t ∈ v.rest, abs t = some ((abs t).getD t) := by
    intro t ht
    obtain ⟨i, hi⟩ := v.rest_is_component t ht
    rw [hi]
    exact hg i
  obtain ⟨⟨i1, a1⟩, a2, ⟨i3, a3⟩, a4⟩ :=
    Vector.extreme_of_fold (fun t => (abs t).getD t) v
  refine ⟨v.rest.foldl (fun out t => Min.min out ((abs t).getD t))
      ((abs (v._data 0)).getD (v._data 0)),
    v.rest.foldl (fun out t => Max.max out ((abs t).getD t))
      ((abs (v._data 0)).getD (v._data 0)), ?_, ?_, ⟨i1, ?_⟩, ?_, ⟨i3, ?_⟩, ?_⟩
  · unfold Vector.minAbs
    rw [hg 0]
    exact foldl_option_of_some Min.min abs _ v.rest hrest _
  · unfold Vector.maxAbs
    rw [hg 0]
    exact foldl_option_of_some Max.max abs _ v.rest hrest _
  · rw [hg i1, a1]
  · intro i a ha
    have := a2 i
    rw [ha] at this
    exact this
  · rw [hg i3, a3]
  · intro i a ha
    have := a4 i
    rw [ha] at this
    exact this

theorem Vector.abs_undefined {size : Nat} {T : Type} (op : T → T → T) (abs : T → Option T)
    (v : Vector (size + 1) T) (h : ∃ i, abs (v._data i) = none) :
    v.rest.foldl (fun out x => out.bind fun m => (abs x).map fun b => op m b)
      (abs (v._data 0)) = none := by
  obtain ⟨i, hi⟩ := h
  rcases v.component_first_or_rest i with h0 | hmem
  · rw [← h0, hi]
    exact foldl_option_none op abs v.rest
  · exact foldl_option_of_none op abs v.rest ⟨_, hmem, hi⟩ _

/-- Counterexample to C28: in the floating-point vector (1, NaN) no value at
all is at most every component, and none is at least every component, a
comparison with NaN being false; so the value returned by `min()` is not at
most every component and the one returned by `max()` not at least every
component. -/
theorem nan_component_has_no_extreme :
    (∀ x : Floating ℚ, ¬ ∀ i,
      x ≤ ({ _data := ![Floating.number 1, Floating.nan] } : Vector 2 (Floating ℚ))._data i) ∧
    (∀ x : Floating ℚ, ¬ ∀ i,
      ({ _data := ![Floating.number 1, Floating.nan] } : Vector 2 (Floating ℚ))._data i ≤ x) ∧
    (¬ ∀ i, Vector.min ({ _data := ![Floating.number 1, Floating.nan] } : Vector 2 (Floating ℚ)) ≤
      ({ _data := ![Floating.number 1, Floating.nan] } : Vector 2 (Floating ℚ))._data i) ∧
    (¬ ∀ i, ({ _data := ![Floating.number 1, Floating.nan] } : Vector 2 (Floating ℚ))._data i ≤
      Vector.max ({ _data := ![Floating.number 1, Floating.nan] } : Vector 2 (Floating ℚ))) := by
  have hlow : ∀ x : Floating ℚ, ¬ ∀ i,
      x ≤ ({ _data := ![Floating.number 1, Floating.nan] } : Vector 2 (Floating ℚ))._data i :=
    fun x h => (Floating.not_nan_le x).2 (h 1)
  have hhigh : ∀ x : Floating ℚ, ¬ ∀ i,
      ({ _data := ![Floating.number 1, Floating.nan] } : Vector 2 (Floating ℚ))._data i ≤ x :=
    fun x h => (Floating.not_nan_le x).1 (h 1)
  exact ⟨hlow, hhigh, hlow _, hhigh _⟩

/-- C28 as amended: for every vector with at least one component whose
components are totally ordered, `min()` and `max()` return a component of the
vector that is respectively at most and at least every component, and
`minAbs()` and `maxAbs()` return the absolute value of a component that is
respectively at most and at least the absolute value of every component, the
first component included, provided `std::abs` has a value for every component;
where it has none for a component, neither `minAbs()` nor `maxAbs()` has a
value. For a floating-point vector, whose absolute values always exist, all
this holds when no component is NaN. -/
theorem min_max_are_extreme_components {size : Nat} {T : Type} [LinearOrder T]
    (abs : T → Option T) (absolute : T → T)
    (v : Vector (size + 1) T) (x : Vector (size + 1) (Floating T)) :
    ((∃ i, v.min = v._data i) ∧ (∀ i, v.min ≤ v._data i) ∧
      (∃ i, v.max = v._data i) ∧ (∀ i, v._data i ≤ v.max)) ∧
    ((∀ i, (abs (v._data i)).isSome = true) →
      ∃ least greatest, v.minAbs abs = some least ∧ v.maxAbs abs = some greatest ∧
        (∃ i, abs (v._data i) = some least) ∧
        (∀ i a, abs (v._data i) = some a → least ≤ a) ∧
        (∃ i, abs (v._data i) = some greatest) ∧
        (∀ i a, abs (v._data i) = some a → a ≤ greatest)) ∧
    ((∃ i, abs (v._data i) = none) → v.minAbs abs = none ∧ v.maxAbs abs = none) ∧
    ((∀ i, x._data i ≠ Floating.nan) →
      (∃ i, x.min = x._data i) ∧ (∀ i, x.min ≤ x._data i) ∧
      (∃ i, x.max = x._data i) ∧ (∀ i, x._data i ≤ x.max) ∧
      ∃ least greatest,
        x.minAbs (fun t => some (Floating.map absolute t)) = some least ∧
        x.maxAbs (fun t => some (Floating.map absolute t)) = some greatest ∧
        (∃ i, Floating.map absolute (x._data i) = least) ∧
        (∀ i, least ≤ Floating.map absolute (x._data i)) ∧
        (∃ i, Floating.map absolute (x._data i) = greatest) ∧
        (∀ i, Floating.map absolute (x._data i) ≤ greatest)) := by
  have hord : ∀ w : Vector (size + 1) T,
      (∃ i, w.min = w._data i) ∧ (∀ i, w.min ≤ w._data i) ∧
      (∃ i, w.max = w._data i) ∧ (∀ i, w._data i ≤ w.max) :=
    fun w => Vector.extreme_of_fold (fun t : T => t) w
  refine ⟨hord v, Vector.extreme_abs abs v, ?_, ?_⟩
  · intro hnone
    exact ⟨Vector.abs_undefined Min.min abs v hnone, Vector.abs_undefined Max.max abs v hnone⟩
  · intro hnan
    obtain ⟨w, hw⟩ := Vector.numbers_of_no_nan x hnan
    obtain ⟨e1, e2, e3, e4⟩ := Vector.min_numbers absolute x w hw
    obtain ⟨⟨i1, a1⟩, a2, ⟨i3, a3⟩, a4⟩ := hord w
    obtain ⟨⟨i5, a5⟩, a6, ⟨i7, a7⟩, a8⟩ := Vector.extreme_of_fold absolute w
    rw [e1, e2]
    refine ⟨⟨i1, ?_⟩, ?_, ⟨i3, ?_⟩, ?_,
      Floating.number (w.rest.foldl (fun out t => Min.min out (absolute t))
        (absolute (w._data 0))),
      Floating.number (w.rest.foldl (fun out t => Max.max out (absolute t))
        (absolute (w._data 0))), ?_, ?_, ⟨i5, ?_⟩, ?_, ⟨i7, ?_⟩, ?_⟩
    · rw [hw i1, a1]
    · intro i
      rw [hw i]
      exact (Floating.number_le_number _ _).mpr (a2 i)
    · rw [hw i3, a3]
    · intro i
      rw [hw i]
      exact (Floating.number_le_number _ _).mpr (a4 i)
    · unfold Vector.minAbs
      rw [foldl_option_of_some Min.min (fun t => some (Floating.map absolute t))
        (Floating.map absolute) x.rest (fun _ _ => rfl), e3]
    · unfold Vector.maxAbs
      rw [foldl_option_of_some Max.max (fun t => some (Floating.map absolute t))
        (Floating.map absolute) x.rest (fun _ _ => rfl), e4]
    · rw [hw i5, a5]
      rfl
    · intro i
      rw [hw i]
      exact (Floating.number_le_number _ _).mpr (a6 i)
    · rw [hw i7, a7]
      rfl
    · intro i
      rw [hw i]
      exact (Floating.number_le_number _ _).mpr (a8 i)

/-- The values of the tests of C28, with `Float` components: the maximum of
(-1, -2, -3) is -1 and not 0, the minimum of (1, -2, 3) is -2, the least
absolute value of (-2, 1, 3) and of (1, -2, 3) is 1, the greatest of
(-5, 1, 3) and of (1, -5, 3) is 5; and the maximum of (-1, -2, -3) is at least
every component. -/
theorem min_max_are_extreme_components_witness :
    Vector.max
      ({ _data := ![Floating.number (-1), Floating.number (-2), Floating.number (-3)] } :
        Vector 3 (Floating ℚ)) = Floating.number (-1) ∧
    Vector.min
      ({ _data := ![Floating.number 1, Floating.number (-2), Floating.number 3] } :
        Vector 3 (Floating ℚ)) = Floating.number (-2) ∧
    Vector.minAbs (fun t => some (Floating.map (fun q : ℚ => |q|) t))
      ({ _data := ![Floating.number (-2), Floating.number 1, Floating.number 3] } :
        Vector 3 (Floating ℚ)) = some (Floating.number 1) ∧
    Vector.minAbs (fun t => some (Floating.map (fun q : ℚ => |q|) t))
      ({ _data := ![Floating.number 1, Floating.number (-2), Floating.number 3] } :
        Vector 3 (Floating ℚ)) = some (Floating.number 1) ∧
    Vector.maxAbs (fun t => some (Floating.map (fun q : ℚ => |q|) t))
      ({ _data := ![Floating.number (-5), Floating.number 1, Floating.number 3] } :
        Vector 3 (Floating ℚ)) = some (Floating.number 5) ∧
    Vector.maxAbs (fun t => some (Floating.map (fun q : ℚ => |q|) t))
      ({ _data := ![Floating.number 1, Floating.number (-5), Floating.number 3] } :
        Vector 3 (Floating ℚ)) = some (Floating.number 5) ∧
    (∀ i,
      ({ _data := ![Floating.number (-1), Floating.number (-2), Floating.number (-3)] } :
        Vector 3 (Floating ℚ))._data i ≤
      Vector.max
      ({ _data := ![Floating.number (-1), Floating.number (-2), Floating.number (-3)] } :
        Vector 3 (Floating ℚ))) := by
  have hnan : ∀ i,
      ({ _data := ![Floating.number (-1), Floating.number (-2), Floating.number (-3)] } :
        Vector 3 (Floating ℚ))._data i ≠ Floating.nan := by
    intro i
    fin_cases i <;> simp
  have hthm := (min_max_are_extreme_components (fun t : ℚ => some |t|) (fun t : ℚ => |t|)
    ({ _data := ![-1, -2, -3] } : Vector 3 ℚ)
      ({ _data := ![Floating.number (-1), Floating.number (-2), Floating.number (-3)] } :
        Vector 3 (Floating ℚ))).2.2.2 hnan
  refine ⟨?_, ?_, ?_, ?_, ?_, ?_, hthm.2.2.2.1⟩
  · simp [Vector.max, Vector.rest, List.ofFn_succ, Floating.max_number]
  · simp [Vector.min, Vector.rest, List.ofFn_succ, Floating.min_number]
    norm_num
  · simp [Vector.minAbs, Vector.rest, List.ofFn_succ, Floating.min_number, Floating.map]
  · simp [Vector.minAbs, Vector.rest, List.ofFn_succ, Floating.min_number, Floating.map]
  · simp [Vector.maxAbs, Vector.rest, List.ofFn_succ, Floating.max_number, Floating.map]
    norm_num
  · simp [Vector.maxAbs, Vector.rest, List.ofFn_succ, Floating.max_number, Floating.map]
    norm_num

/-- Counterexample to C29: for the one-component floating-point vectors (NaN)
and (1) both `<` and `>=` give the mask 0, and so do `<=` and `>`: a
comparison with NaN is false either way, and the masks of the two opposite
comparisons are equal, not complements. -/
theorem comparisons_with_nan_are_not_complements :
    Vector.less ({ _data := ![Floating.nan] } : Vector 1 (Floating ℚ))
      { _data := ![Floating.number 1] } = BoolVector.ofMask 0 ∧
    Vector.greaterOrEqual ({ _data := ![Floating.nan] } : Vector 1 (Floating ℚ))
      { _data := ![Floating.number 1] } = BoolVector.ofMask 0 ∧
    Vector.lessOrEqual ({ _data := ![Floating.nan] } : Vector 1 (Floating ℚ))
      { _data := ![Floating.number 1] } = BoolVector.ofMask 0 ∧
    Vector.greater ({ _data := ![Floating.nan] } : Vector 1 (Floating ℚ))
      { _data := ![Floating.number 1] } = BoolVector.ofMask 0 ∧
    Vector.less ({ _data := ![Floating.nan] } : Vector 1 (Floating ℚ))
      { _data := ![Floating.number 1] } ≠
      (Vector.greaterOrEqual ({ _data := ![Floating.nan] } : Vector 1 (Floating ℚ))
        { _data := ![Floating.number 1] }).complement ∧
    Vector.lessOrEqual ({ _data := ![Floating.nan] } : Vector 1 (Floating ℚ))
      { _data := ![Floating.number 1] } ≠
      (Vector.greater ({ _data := ![Floating.nan] } : Vector 1 (Floating ℚ))
        { _data := ![Floating.number 1] }).complement := by
  have h1 : Vector.less ({ _data := ![Floating.nan] } : Vector 1 (Floating ℚ))
      { _data := ![Floating.number 1] } = BoolVector.ofMask 0 := by
    ext i
    fin_cases i
    simp only [Vector.less, BoolVector.ofMask]
    exact decide_eq_false (Floating.not_nan_lt (Floating.number (1 : ℚ))).1
  have h2 : Vector.greaterOrEqual ({ _data := ![Floating.nan] } : Vector 1 (Floating ℚ))
      { _data := ![Floating.number 1] } = BoolVector.ofMask 0 := by
    ext i
    fin_cases i
    simp only [Vector.greaterOrEqual, BoolVector.ofMask]
    exact decide_eq_false (Floating.not_nan_le (Floating.number (1 : ℚ))).2
  have h3 : Vector.lessOrEqual ({ _data := ![Floating.nan] } : Vector 1 (Floating ℚ))
      { _data := ![Floating.number 1] } = BoolVector.ofMask 0 := by
    ext i
    fin_cases i
    simp only [Vector.lessOrEqual, BoolVector.ofMask]
    exact decide_eq_false (Floating.not_nan_le (Floating.number (1 : ℚ))).1
  have h4 : Vector.greater ({ _data := ![Floating.nan] } : Vector 1 (Floating ℚ))
      { _data := ![Floating.number 1] } = BoolVector.ofMask 0 := by
    ext i
    fin_cases i
    simp only [Vector.greater, BoolVector.ofMask]
    exact decide_eq_false (Floating.not_nan_lt (Floating.number (1 : ℚ))).2
  have hne : (BoolVector.ofMask 0 : BoolVector 1) ≠ (BoolVector.ofMask 0).complement := by
    decide
  refine ⟨h1, h2, h3, h4, ?_, ?_⟩
  · rw [h1, h2]
    exact hne
  · rw [h3, h4]
    exact hne

/-- C29 as amended: for two vectors `a` and `b` of the same size, each of the
four component-wise comparisons gives a `BoolVector` whose bit `i` is set
exactly when the relation holds for component `i`, whatever the component
type. When the components are totally ordered, `a < b` is the bitwise
complement of `a >= b`, and `a <= b` the bitwise complement of `a > b`. For
floating-point vectors the bits of a component are complements when neither
operand is NaN there, and all four bits are clear when one is; so the masks
are complements when no component of either vector is NaN. -/
theorem componentwise_comparison_bits {size : Nat} {T U : Type} [LT T] [LE T]
    [DecidableRel fun s t : T => s < t] [DecidableRel fun s t : T => s ≤ t] [LinearOrder U]
    (a b : Vector size T) (c d : Vector size U) (x y : Vector size (Floating U)) :
    ((∀ i, (a.less b)._data i = true ↔ a._data i < b._data i) ∧
      (∀ i, (a.lessOrEqual b)._data i = true ↔ a._data i ≤ b._data i) ∧
      (∀ i, (a.greaterOrEqual b)._data i = true ↔ a._data i ≥ b._data i) ∧
      (∀ i, (a.greater b)._data i = true ↔ a._data i > b._data i)) ∧
    (c.less d = (c.greaterOrEqual d).complement ∧
      c.greaterOrEqual d = (c.less d).complement ∧
      c.lessOrEqual d = (c.greater d).complement ∧
      c.greater d = (c.lessOrEqual d).complement) ∧
    (∀ i, x._data i ≠ Floating.nan → y._data i ≠ Floating.nan →
      (x.less y)._data i = !(x.greaterOrEqual y)._data i ∧
      (x.lessOrEqual y)._data i = !(x.greater y)._data i) ∧
    (∀ i, x._data i = Floating.nan ∨ y._data i = Floating.nan →
      (x.less y)._data i = false ∧ (x.lessOrEqual y)._data i = false ∧
      (x.greaterOrEqual y)._data i = false ∧ (x.greater y)._data i = false) ∧
    ((∀ i, x._data i ≠ Floating.nan ∧ y._data i ≠ Floating.nan) →
      x.less y = (x.greaterOrEqual y).complement ∧
      x.greaterOrEqual y = (x.less y).complement ∧
      x.lessOrEqual y = (x.greater y).complement ∧
      x.greater y = (x.lessOrEqual y).complement) := by
  have hnum : ∀ i, x._data i ≠ Floating.nan → y._data i ≠ Floating.nan →
      (x.less y)._data i = !(x.greaterOrEqual y)._data i ∧
      (x.lessOrEqual y)._data i = !(x.greater y)._data i := by
    intro i hx hy
    cases hxi : x._data i with
    | nan => exact absurd hxi hx
    | number s =>
      cases hyi : y._data i with
      | nan => exact absurd hyi hy
      | number t =>
        constructor
        · show decide (x._data i < y._data i) = !decide (x._data i ≥ y._data i)
          rw [hxi, hyi]
          rcases lt_or_le s t with h | h
          · rw [decide_eq_true ((Floating.number_lt_number s t).mpr h),
              decide_eq_false fun hge => not_le.mpr h ((Floating.number_le_number t s).mp hge)]
            rfl
          · rw [decide_eq_false fun hlt =>
                not_lt.mpr h ((Floating.number_lt_number s t).mp hlt),
              decide_eq_true ((Floating.number_le_number t s).mpr h)]
            rfl
        · show decide (x._data i ≤ y._data i) = !decide (x._data i > y._data i)
          rw [hxi, hyi]
          rcases lt_or_le t s with h | h
          · rw [decide_eq_false fun hle =>
                not_le.mpr h ((Floating.number_le_number s t).mp hle),
              decide_eq_true ((Floating.number_lt_number t s).mpr h)]
            rfl
          · rw [decide_eq_true ((Floating.number_le_number s t).mpr h),
              decide_eq_false fun hgt => not_lt.mpr h ((Floating.number_lt_number t s).mp hgt)]
            rfl
  refine ⟨⟨?_, ?_, ?_, ?_⟩, ⟨?_, ?_, ?_, ?_⟩, hnum, ?_, ?_⟩
  · intro i
    simp [Vector.less]
  · intro i
    simp [Vector.lessOrEqual]
  · intro i
    simp [Vector.greaterOrEqual]
  · intro i
    simp [Vector.greater]
  · ext i
    rcases lt_or_le (c._data i) (d._data i) with h | h <;>
      simp [Vector.less, Vector.greaterOrEqual, BoolVector.complement, h, not_le.mpr,
        not_lt.mpr]
  · ext i
    rcases lt_or_le (c._data i) (d._data i) with h | h <;>
      simp [Vector.less, Vector.greaterOrEqual, BoolVector.complement, h, not_le.mpr,
        not_lt.mpr]
  · ext i
    rcases lt_or_le (d._data i) (c._data i) with h | h <;>
      simp [Vector.lessOrEqual, Vector.greater, BoolVector.complement, h, not_le.mpr,
        not_lt.mpr]
  · ext i
    rcases lt_or_le (d._data i) (c._data i) with h | h <;>
      simp [Vector.lessOrEqual, Vector.greater, BoolVector.complement, h, not_le.mpr,
        not_lt.mpr]
  · intro i hnan
    refine ⟨?_, ?_, ?_, ?_⟩
    · show decide (x._data i < y._data i) = false
      rcases hnan with h | h <;> rw [h]
      · exact decide_eq_false (Floating.not_nan_lt _).1
      · exact decide_eq_false (Floating.not_nan_lt _).2
    · show decide (x._data i ≤ y._data i) = false
      rcases hnan with h | h <;> rw [h]
      · exact decide_eq_false (Floating.not_nan_le _).1
      · exact decide_eq_false (Floating.not_nan_le _).2
    · show decide (x._data i ≥ y._data i) = false
      rcases hnan with h | h <;> rw [h]
      · exact decide_eq_false (Floating.not_nan_le _).2
      · exact decide_eq_false (Floating.not_nan_le _).1
    · show decide (x._data i > y._data i) = false
      rcases hnan with h | h <;> rw [h]
      · exact decide_eq_false (Floating.not_nan_lt _).2
      · exact decide_eq_false (Floating.not_nan_lt _).1
  · intro hall
    refine ⟨?_, ?_, ?_, ?_⟩
    · ext i
      exact (hnum i (hall i).1 (hall i).2).1
    · ext i
      show (x.greaterOrEqual y)._data i = !(x.less y)._data i
      rw [(hnum i (hall i).1 (hall i).2).1, Bool.not_not]
    · ext i
      exact (hnum i (hall i).1 (hall i).2).2
    · ext i
      show (x.greater y)._data i = !(x.lessOrEqual y)._data i
      rw [(hnum i (hall i).1 (hall i).2).2, Bool.not_not]

/-- The values of the test of C29, with `Float` components: (1, -1, 5) against
(1.1, -1, 3) gives the masks 0x1 for `<`, 0x3 for `<=`, 0x6 for `>=` and 0x4
for `>`; and `<` is the complement of `>=` there. -/
theorem componentwise_comparison_bits_witness :
    Vector.less
      ({ _data := ![Floating.number 1, Floating.number (-1), Floating.number 5] } :
        Vector 3 (Floating ℚ))
      { _data := ![Floating.number (11 / 10), Floating.number (-1), Floating.number 3] } =
      BoolVector.ofMask 1 ∧
    Vector.lessOrEqual
      ({ _data := ![Floating.number 1, Floating.number (-1), Floating.number 5] } :
        Vector 3 (Floating ℚ))
      { _data := ![Floating.number (11 / 10), Floating.number (-1), Floating.number 3] } =
      BoolVector.ofMask 3 ∧
    Vector.greaterOrEqual
      ({ _data := ![Floating.number 1, Floating.number (-1), Floating.number 5] } :
        Vector 3 (Floating ℚ))
      { _data := ![Floating.number (11 / 10), Floating.number (-1), Floating.number 3] } =
      BoolVector.ofMask 6 ∧
    Vector.greater
      ({ _data := ![Floating.number 1, Floating.number (-1), Floating.number 5] } :
        Vector 3 (Floating ℚ))
      { _data := ![Floating.number (11 / 10), Floating.number (-1), Floating.number 3] } =
      BoolVector.ofMask 4 ∧
    Vector.less
      ({ _data := ![Floating.number 1, Floating.number (-1), Floating.number 5] } :
        Vector 3 (Floating ℚ))
      { _data := ![Floating.number (11 / 10), Floating.number (-1), Floating.number 3] } =
      (Vector.greaterOrEqual
        ({ _data := ![Floating.number 1, Floating.number (-1), Floating.number 5] } :
          Vector 3 (Floating ℚ))
        { _data := ![Floating.number (11 / 10), Floating.number (-1),
            Floating.number 3] }).complement := by
  have hthm := componentwise_comparison_bits
    ({ _data := ![1, -1, 5] } : Vector 3 ℚ) { _data := ![11 / 10, -1, 3] }
    ({ _data := ![1, -1, 5] } : Vector 3 ℚ) { _data := ![11 / 10, -1, 3] }
    ({ _data := ![Floating.number 1, Floating.number (-1), Floating.number 5] } :
      Vector 3 (Floating ℚ))
    { _data := ![Floating.number (11 / 10), Floating.number (-1), Floating.number 3] }
  have hall : ∀ i,
      ({ _data := ![Floating.number 1, Floating.number (-1), Floating.number 5] } :
        Vector 3 (Floating ℚ))._data i ≠ Floating.nan ∧
      ({ _data := ![Floating.number (11 / 10), Floating.number (-1), Floating.number 3] } :
        Vector 3 (Floating ℚ))._data i ≠ Floating.nan := by
    intro i
    fin_cases i <;> simp
  refine ⟨?_, ?_, ?_, ?_, (hthm.2.2.2.2 hall).1⟩
  · ext i
    fin_cases i <;>
      simp [Vector.less, BoolVector.ofMask, Floating.number_lt_number] <;>
      first | decide | norm_num
  · ext i
    fin_cases i <;>
      simp [Vector.lessOrEqual, BoolVector.ofMask, Floating.number_le_number] <;>
      first | decide | norm_num
  · ext i
    fin_cases i <;>
      simp [Vector.greaterOrEqual, BoolVector.ofMask, Floating.number_le_number] <;>
      first | decide | norm_num
  · ext i
    fin_cases i <;>
      simp [Vector.greater, BoolVector.ofMask, Floating.number_lt_number] <;>
      first | decide | norm_num

theorem Vector.dot_mulScalar {size : Nat} (line : Vector size ℝ) (d : ℝ) :
    (line.mulScalar d).dot = line.dot * (d * d) := by
  unfold Vector.dot Vector.dotProduct Vector.mulScalar
  rw [Finset.sum_mul]
  refine Finset.sum_congr rfl ?_
  intro i _
  ring

theorem Vector.projected_of_normalized {size : Nat} (v line : Vector size ℝ)
    (h : line.dot = 1) : v.projected line = line.mulScalar (Vector.dotProduct v line) := by
  unfold Vector.projected
  rw [h]
  ext i
  simp [Vector.divScalar]

/-- Counterexample to C27: the line (1, 0) is normalized, the projection of
(-1, 0) onto it is (-1, 0), both through `projected` and through
`projectedOntoNormalized`, and the normalization of that projection is not the
normalization of the line. -/
theorem projection_may_point_against_line :
    Vector.dot ({ _data := ![1, 0] } : Vector 2 ℝ) = 1 ∧
    Vector.projected ({ _data := ![-1, 0] } : Vector 2 ℝ) { _data := ![1, 0] } =
      { _data := ![-1, 0] } ∧
    Vector.projectedOntoNormalized (fun a b : ℝ => decide (a = b)) 0
      ({ _data := ![-1, 0] } : Vector 2 ℝ) { _data := ![1, 0] } =
      Except.ok { _data := ![-1, 0] } ∧
    Vector.normalized Real.sqrt
      (Vector.projected ({ _data := ![-1, 0] } : Vector 2 ℝ) { _data := ![1, 0] }) ≠
      Vector.normalized Real.sqrt ({ _data := ![1, 0] } : Vector 2 ℝ) := by
  have hdot : Vector.dot ({ _data := ![1, 0] } : Vector 2 ℝ) = 1 := by
    simp [Vector.dot, Vector.dotProduct, Fin.sum_univ_two]
  have hproj : Vector.projected ({ _data := ![-1, 0] } : Vector 2 ℝ) { _data := ![1, 0] } =
      { _data := ![-1, 0] } := by
    rw [Vector.projected_of_normalized _ _ hdot]
    ext i
    fin_cases i <;> simp [Vector.mulScalar, Vector.dotProduct, Fin.sum_univ_two]
  refine ⟨hdot, hproj, ?_, ?_⟩
  · unfold Vector.projectedOntoNormalized
    rw [hdot]
    simp only [decide_True, if_true]
    congr 1
    ext i
    fin_cases i <;> simp [Vector.mulScalar, Vector.dotProduct, Fin.sum_univ_two]
  · rw [hproj]
    intro heq
    have h0 := congrArg (fun w : Vector 2 ℝ => w._data 0) heq
    simp [Vector.normalized, Vector.length, Vector.divScalar, Vector.dot, Vector.dotProduct,
      Fin.sum_univ_two] at h0
    norm_num at h0

/-- C27 as amended: over the reals, with a comparison that accepts equal
values, for every vector `v` and every line with `dot()` equal to 1,
`v.projectedOntoNormalized(line)` returns `v.projected(line)`, which is the
line scaled by `dot(v, line)` and so parallel to it; when `dot(v, line)` is
positive the normalization of the projection is the normalization of the
line. For every line whose `dot()` the comparison does not accept as 1,
`projectedOntoNormalized` returns the vector of NaN with the diagnostic "line
must be normalized". -/
theorem projection_onto_normalized_line {size : Nat} (equals : ℝ → ℝ → Bool) (quietNaN : ℝ)
    (hequals : ∀ x, equals x x = true) (v line : Vector size ℝ) (h : line.dot = 1) :
    Vector.projectedOntoNormalized equals quietNaN v line = Except.ok (v.projected line) ∧
    v.projected line = line.mulScalar (Vector.dotProduct v line) ∧
    (0 < Vector.dotProduct v line →
      (v.projected line).normalized Real.sqrt = line.normalized Real.sqrt) ∧
    (∀ other : Vector size ℝ, equals other.dot 1 = false →
      Vector.projectedOntoNormalized equals quietNaN v other =
        Except.error
          { message := Vector.projectedOntoNormalizedMessage
            value := { _data := fun _ => quietNaN } }) := by
  have hproj := Vector.projected_of_normalized v line h
  refine ⟨?_, hproj, ?_, ?_⟩
  · unfold Vector.projectedOntoNormalized
    rw [h, hequals 1, hproj]
    rfl
  · intro hpos
    rw [hproj]
    have hlen : (line.mulScalar (Vector.dotProduct v line)).length Real.sqrt =
        Vector.dotProduct v line := by
      unfold Vector.length
      rw [Vector.dot_mulScalar, h, one_mul]
      exact Real.sqrt_mul_self hpos.le
    have hline : line.length Real.sqrt = 1 := by
      unfold Vector.length
      rw [h]
      exact Real.sqrt_one
    unfold Vector.normalized
    rw [hlen, hline]
    ext i
    simp only [Vector.divScalar, Vector.mulScalar]
    field_simp
  · intro other hother
    unfold Vector.projectedOntoNormalized
    rw [hother]
    rfl

/-- The values of the test of C27: the line (1, -1, 0.5) normalized is
(2/3, -2/3, 1/3), with `dot()` 1; projecting (1, 2, 3) onto it gives
(2/9, -2/9, 1/9), that is (0.222222, -0.222222, 0.111111), through
`projectedOntoNormalized` as through `projected`. -/
theorem projection_onto_normalized_line_witness :
    (∀ x : ℝ, (fun a b : ℝ => decide (a = b)) x x = true) ∧
    Vector.dot ({ _data := ![2 / 3, -2 / 3, 1 / 3] } : Vector 3 ℝ) = 1 ∧
    Vector.projectedOntoNormalized (fun a b : ℝ => decide (a = b)) 0
      ({ _data := ![1, 2, 3] } : Vector 3 ℝ) { _data := ![2 / 3, -2 / 3, 1 / 3] } =
      Except.ok (Vector.projected ({ _data := ![1, 2, 3] } : Vector 3 ℝ)
        { _data := ![2 / 3, -2 / 3, 1 / 3] }) ∧
    Vector.projected ({ _data := ![1, 2, 3] } : Vector 3 ℝ)
      { _data := ![2 / 3, -2 / 3, 1 / 3] } = { _data := ![2 / 9, -2 / 9, 1 / 9] } ∧
    Vector.projected ({ _data := ![1, 2, 3] } : Vector 3 ℝ)
      { _data := ![1, -1, 1 / 2] } = { _data := ![2 / 9, -2 / 9, 1 / 9] } := by
  have hequals : ∀ x : ℝ, (fun a b : ℝ => decide (a = b)) x x = true := by
    intro x
    simp
  have hdot : Vector.dot ({ _data := ![2 / 3, -2 / 3, 1 / 3] } : Vector 3 ℝ) = 1 := by
    simp [Vector.dot, Vector.dotProduct, Fin.sum_univ_three]
    norm_num
  refine ⟨hequals, hdot,
    (projection_onto_normalized_line (fun a b : ℝ => decide (a = b)) 0 hequals
      ({ _data := ![1, 2, 3] } : Vector 3 ℝ) { _data := ![2 / 3, -2 / 3, 1 / 3] } hdot).1,
    ?_, ?_⟩
  · ext i
    fin_cases i <;>
      simp [Vector.projected, Vector.mulScalar, Vector.divScalar, Vector.dot,
        Vector.dotProduct, Fin.sum_univ_three] <;> norm_num
  · ext i
    fin_cases i <;>
      simp [Vector.projected, Vector.mulScalar, Vector.divScalar, Vector.dot,
        Vector.dotProduct, Fin.sum_univ_three] <;> norm_num

/-! ## Floating-point arithmetic and conversions -/

theorem Vector.collect_eq_none {size : Nat} {T : Type} (components : Fin size → Option T)
    (i : Fin size) (h : components i = none) : Vector.collect components = none := by
  unfold Vector.collect
  rw [dif_neg]
  intro hall
  have := hall i
  rw [h] at this
  exact Bool.noConfusion this

theorem Vector.components_of_collect {size : Nat} {T : Type} (components : Fin size → Option T)
    (v : Vector size T) (h : Vector.collect components = some v) :
    ∀ i, components i = some (v._data i) := by
  intro i
  unfold Vector.collect at h
  split at h
  · rename_i hall
    have hv := Option.some.inj h
    rw [← hv]
    simp
  · exact absurd h (by simp)

end Math

namespace Vk

/-! ## The divisor block invariant -/

theorem pNext_divisorInfo_of_chain_block (l : MeshLayout)
    (divisors : List VkVertexInputBindingDivisorDescriptionEXT)
    (h : l.extensionChain = some [MeshLayout.ExtensionBlock.divisorState divisors]) :
    l._vertexInfo.pNext = Ptr.divisorInfo := by
  unfold MeshLayout.extensionChain at h
  cases hp : l._vertexInfo.pNext <;> simp_all

theorem divisorEntry_count_le_instanced (calls : List Call) :
    (calls.filterMap Call.divisorEntry).length ≤
      ((calls.filterMap Call.bindingDescription).filter
        fun d => decide (d.inputRate = VkVertexInputRate.INSTANCE)).length := by
  induction calls with
  | nil => simp
  | cons c calls ih =>
    cases c with
    | addBinding binding stride =>
      simpa [List.filterMap_cons, Call.divisorEntry, Call.bindingDescription] using ih
    | addInstancedBinding binding stride divisor =>
      by_cases hd : divisor = 1
      · simp [List.filterMap_cons, Call.divisorEntry, Call.bindingDescription, hd]
        omega
      · simp [List.filterMap_cons, Call.divisorEntry, Call.bindingDescription, hd]
        exact ih
    | addAttribute location binding format offset =>
      simpa [List.filterMap_cons, Call.divisorEntry, Call.bindingDescription] using ih

/-- C32: in every builder state reachable from `construct(primitive)` by
`addBinding` / `addInstancedBinding` / `addAttribute` calls, the divisor block
is linked into the extension chain of the vertex-input aggregate if and only
if the divisor entry list is not empty; every divisor entry has a divisor
other than 1 and the binding index of some PerInstance binding descriptor of
the aggregate; and there are at most as many divisor entries as PerInstance
binding descriptors. -/
theorem divisor_block_invariant (primitive : MeshPrimitive) (calls : List Call) :
    ((build primitive calls)._vertexInfo.pNext = Ptr.divisorInfo ↔
      (build primitive calls).divisorEntries ≠ []) ∧
    ((build primitive calls).containsDivisorBlock = true ↔
      (build primitive calls).divisorEntries ≠ []) ∧
    (∃ bindings, (build primitive calls).vertexBindingDescriptions = some bindings ∧
      (∀ e ∈ (build primitive calls).divisorEntries,
        e.divisor ≠ 1 ∧
        ∃ d ∈ bindings, d.binding = e.binding ∧ d.inputRate = VkVertexInputRate.INSTANCE) ∧
      (build primitive calls).divisorEntries.length ≤
        (bindings.filter fun d => decide (d.inputRate = VkVertexInputRate.INSTANCE)).length) := by
  have hwf := wellFormed_build primitive calls
  have hchain := hwf.2.2.1
  have hdiv : (build primitive calls).divisorEntries = calls.filterMap Call.divisorEntry :=
    build_bindingDivisors primitive calls
  have hentries : (build primitive calls).allocatedState.bindingDivisors =
      (build primitive calls).divisorEntries := rfl
  rw [hentries] at hchain
  refine ⟨?_, ?_, ?_⟩
  · constructor
    · intro hp hnil
      rw [hnil, if_pos rfl] at hchain
      rw [pNext_null_of_chain_nil _ hchain] at hp
      exact absurd hp (by decide)
    · intro hne
      rw [if_neg hne] at hchain
      exact pNext_divisorInfo_of_chain_block _ _ hchain
  · unfold MeshLayout.containsDivisorBlock
    rw [hchain]
    by_cases hnil : (build primitive calls).divisorEntries = [] <;> simp [hnil]
  · refine ⟨calls.filterMap Call.bindingDescription, ?_, ?_, ?_⟩
    · rw [hwf.1, build_bindings]
    · intro e he
      rw [hdiv] at he
      obtain ⟨c, hc, hce⟩ := List.mem_filterMap.mp he
      cases c with
      | addBinding binding stride => simp [Call.divisorEntry] at hce
      | addInstancedBinding binding stride divisor =>
        by_cases hd : divisor = 1
        · simp [Call.divisorEntry, hd] at hce
        · simp only [Call.divisorEntry, hd, ne_eq, not_false_eq_true, if_true,
            Option.some.injEq] at hce
          subst hce
          have hmem : (⟨binding, stride, VkVertexInputRate.INSTANCE⟩ :
              VkVertexInputBindingDescription) ∈ calls.filterMap Call.bindingDescription :=
            List.mem_filterMap.mpr ⟨_, hc, rfl⟩
          exact ⟨hd, _, hmem, rfl, rfl⟩
      | addAttribute location binding format offset => simp [Call.divisorEntry] at hce
    · rw [hdiv]
      exact divisorEntry_count_le_instanced calls

end Vk
end Magnum
